import Mathlib

/-! IINE Pro Max drum controller driver.

A shallow embedding of `usb_drivers/iine_pro_max.c` and the properties of its
report decoding, button mapping, side-hit processing and connection lifecycle.

Conventions of the embedding:

* machine integers are `Nat`/`Int`; a conversion to a narrower C type is an explicit
  wrap (`u32_of_nat`, `s16_of_int`);
* the driver's calls into the host (`printf`, the `egc_device_driver_*` entry points) are
  recorded, in program order, as a list of `egc_call`;
* what the host headers `driver_api.h`/`utils.h` declare (enumerator values, the byte order
  of the target, the result of issuing a transfer) is not in the sources and is a parameter:
  the record `egc_platform` and the Boolean `issued`.
-/

set_option linter.unusedVariables false

/-! ## Host vocabulary (declared in the host headers) -/

/-- The abstract gamepad buttons the driver names (enumerators of `egc_gamepad_button_e`). -/
inductive egc_gamepad_button_e
  | EGC_GAMEPAD_BUTTON_SOUTH
  | EGC_GAMEPAD_BUTTON_EAST
  | EGC_GAMEPAD_BUTTON_WEST
  | EGC_GAMEPAD_BUTTON_NORTH
  | EGC_GAMEPAD_BUTTON_LEFT_SHOULDER
  | EGC_GAMEPAD_BUTTON_RIGHT_SHOULDER
  | EGC_GAMEPAD_BUTTON_BACK
  | EGC_GAMEPAD_BUTTON_START
  | EGC_GAMEPAD_BUTTON_GUIDE
  | EGC_GAMEPAD_BUTTON_DPAD_UP
  | EGC_GAMEPAD_BUTTON_DPAD_DOWN
  | EGC_GAMEPAD_BUTTON_DPAD_LEFT
  | EGC_GAMEPAD_BUTTON_DPAD_RIGHT
  deriving DecidableEq, Repr, Fintype

/-- The abstract axes the driver names (enumerators of the host's axis enumeration). -/
inductive egc_gamepad_axis_e
  | EGC_GAMEPAD_AXIS_LEFT_TRIGGER
  | EGC_GAMEPAD_AXIS_RIGHT_TRIGGER
  deriving DecidableEq, Repr, Fintype

/-- Completion status of a transfer: the driver only tells `COMPLETED` from everything else. -/
inductive egc_usb_transfer_status_e
  | EGC_USB_TRANSFER_STATUS_COMPLETED
  | EGC_USB_TRANSFER_STATUS_ERROR (code : Int)
  deriving DecidableEq, Repr

open egc_gamepad_button_e egc_gamepad_axis_e egc_usb_transfer_status_e

/-- What the absent host headers fix and the driver source does not: the numeric value of every
enumerator and constant it uses, and the byte order in which the target loads a `u16`. -/
structure egc_platform where
  button : egc_gamepad_button_e → Nat
  axis : egc_gamepad_axis_e → Nat
  big_endian : Bool
  EGC_USB_ENDPOINT_IN : Nat
  EGC_USB_CTRLTYPE_DIR_DEVICE2HOST : Nat
  EGC_USB_CTRLTYPE_TYPE_CLASS : Nat
  EGC_USB_CTRLTYPE_REC_INTERFACE : Nat
  EGC_USB_REQ_GETREPORT : Nat
  EGC_USB_REPTYPE_INPUT : Nat
  EGC_DEVICE_TYPE_GAMEPAD : Nat

/-- The enumerators are usable as the driver uses them: every button value is a bit position of
the 32-bit button word, distinct buttons have distinct values, and the two trigger axes are
distinct slots of the axis array. -/
def egc_platform.valid (P : egc_platform) : Prop :=
  (∀ b, P.button b < 32) ∧ (∀ a b, P.button a = P.button b → a = b) ∧
    P.axis EGC_GAMEPAD_AXIS_LEFT_TRIGGER ≠ P.axis EGC_GAMEPAD_AXIS_RIGHT_TRIGGER

instance (P : egc_platform) : Decidable P.valid := by
  unfold egc_platform.valid; infer_instance

/-- Modelled from the spec: the `BIT` macro of the absent `utils.h`, the mask with only
bit `n` set. -/
def BIT (n : Nat) : Nat := 2 ^ n

/-- Storing into the 32-bit button word. -/
def u32_of_nat (x : Nat) : Nat := x % 2 ^ 32

/-- Conversion of a C `int` value to `s16` (two's complement wrap). -/
def s16_of_int (x : Int) : Int := (x + 32768) % 65536 - 32768

/-! ## Wire report -/

/-- Source lines 6-17: `struct iinepm_drum_input_report` (packed, 20 bytes). -/
structure iinepm_drum_input_report where
  msg_type : Nat
  msg_size : Nat
  buttons : Nat
  left_trigger : Nat
  right_trigger : Nat
  left_thumb_x : Int
  left_thumb_y : Int
  right_thumb_x : Int
  right_thumb_y : Int
  reserved : List Nat

/-- Size of the packed report structure: `sizeof(struct iinepm_drum_input_report)`. -/
def sizeof_iinepm_drum_input_report : Nat := 1 + 1 + 2 + 1 + 1 + 2 + 2 + 2 + 2 + 6

/-- One byte of a buffer; buffers are maps from offset to byte. -/
def load_u8 (data : Nat → Nat) (off : Nat) : Nat := data off % 256

/-- A `u16` field loaded in the byte order of the target. -/
def load_u16 (P : egc_platform) (data : Nat → Nat) (off : Nat) : Nat :=
  if P.big_endian then 256 * load_u8 data off + load_u8 data (off + 1)
  else load_u8 data off + 256 * load_u8 data (off + 1)

/-- An `s16` field loaded in the byte order of the target. -/
def load_s16 (P : egc_platform) (data : Nat → Nat) (off : Nat) : Int :=
  s16_of_int (load_u16 P data off)

/-- Source line 142: the report structure overlaid on the transfer buffer
(`report = (void *)transfer->data`), field by field at the packed offsets. -/
def report_overlay (P : egc_platform) (data : Nat → Nat) : iinepm_drum_input_report :=
  { msg_type := load_u8 data 0
    msg_size := load_u8 data 1
    buttons := load_u16 P data 2
    left_trigger := load_u8 data 4
    right_trigger := load_u8 data 5
    left_thumb_x := load_s16 P data 6
    left_thumb_y := load_s16 P data 8
    right_thumb_x := load_s16 P data 10
    right_thumb_y := load_s16 P data 12
    reserved := (List.range 6).map fun i => load_u8 data (14 + i) }

/-! ## Native buttons (source lines 19-78) -/

def IINEPM_BUTTON_BIT_DPAD_UP : Nat := 0x0001
def IINEPM_BUTTON_BIT_DPAD_DOWN : Nat := 0x0002
def IINEPM_BUTTON_BIT_DPAD_LEFT : Nat := 0x0004
def IINEPM_BUTTON_BIT_DPAD_RIGHT : Nat := 0x0008
def IINEPM_BUTTON_BIT_START : Nat := 0x0010
def IINEPM_BUTTON_BIT_BACK : Nat := 0x0020
def IINEPM_BUTTON_BIT_LEFT_THUMB : Nat := 0x0040
def IINEPM_BUTTON_BIT_RIGHT_THUMB : Nat := 0x0080
def IINEPM_BUTTON_BIT_LEFT_SHOULDER : Nat := 0x0100
def IINEPM_BUTTON_BIT_RIGHT_SHOULDER : Nat := 0x0200
def IINEPM_BUTTON_BIT_GUIDE : Nat := 0x0400
def IINEPM_BUTTON_BIT_A : Nat := 0x1000
def IINEPM_BUTTON_BIT_B : Nat := 0x2000
def IINEPM_BUTTON_BIT_X : Nat := 0x4000
def IINEPM_BUTTON_BIT_Y : Nat := 0x8000

def IINEPM_BUTTON_DPAD_UP : Nat := 0
def IINEPM_BUTTON_DPAD_DOWN : Nat := 1
def IINEPM_BUTTON_DPAD_LEFT : Nat := 2
def IINEPM_BUTTON_DPAD_RIGHT : Nat := 3
def IINEPM_BUTTON_START : Nat := 4
def IINEPM_BUTTON_BACK : Nat := 5
def IINEPM_BUTTON_LEFT_THUMB : Nat := 6
def IINEPM_BUTTON_RIGHT_THUMB : Nat := 7
def IINEPM_BUTTON_LEFT_SHOULDER : Nat := 8
def IINEPM_BUTTON_RIGHT_SHOULDER : Nat := 9
def IINEPM_BUTTON_GUIDE : Nat := 10
def IINEPM_BUTTON_A : Nat := 11
def IINEPM_BUTTON_B : Nat := 12
def IINEPM_BUTTON_X : Nat := 13
def IINEPM_BUTTON_Y : Nat := 14
def IINEPM_BUTTON_COUNT : Nat := 15

/-- Source lines 62-78: the table `s_button_map`, one designated entry per native slot;
`none` outside the `IINEPM_BUTTON_COUNT` entries of the array. -/
def s_button_map (slot : Nat) : Option egc_gamepad_button_e :=
  if slot = IINEPM_BUTTON_DPAD_UP then some EGC_GAMEPAD_BUTTON_DPAD_UP
  else if slot = IINEPM_BUTTON_DPAD_DOWN then some EGC_GAMEPAD_BUTTON_DPAD_DOWN
  else if slot = IINEPM_BUTTON_DPAD_LEFT then some EGC_GAMEPAD_BUTTON_DPAD_LEFT
  else if slot = IINEPM_BUTTON_DPAD_RIGHT then some EGC_GAMEPAD_BUTTON_DPAD_RIGHT
  else if slot = IINEPM_BUTTON_START then some EGC_GAMEPAD_BUTTON_START
  else if slot = IINEPM_BUTTON_BACK then some EGC_GAMEPAD_BUTTON_BACK
  else if slot = IINEPM_BUTTON_LEFT_THUMB then some EGC_GAMEPAD_BUTTON_SOUTH
  else if slot = IINEPM_BUTTON_RIGHT_THUMB then some EGC_GAMEPAD_BUTTON_EAST
  else if slot = IINEPM_BUTTON_LEFT_SHOULDER then some EGC_GAMEPAD_BUTTON_LEFT_SHOULDER
  else if slot = IINEPM_BUTTON_RIGHT_SHOULDER then some EGC_GAMEPAD_BUTTON_RIGHT_SHOULDER
  else if slot = IINEPM_BUTTON_GUIDE then some EGC_GAMEPAD_BUTTON_GUIDE
  else if slot = IINEPM_BUTTON_A then some EGC_GAMEPAD_BUTTON_SOUTH
  else if slot = IINEPM_BUTTON_B then some EGC_GAMEPAD_BUTTON_EAST
  else if slot = IINEPM_BUTTON_X then some EGC_GAMEPAD_BUTTON_WEST
  else if slot = IINEPM_BUTTON_Y then some EGC_GAMEPAD_BUTTON_NORTH
  else none

/-- Source lines 109-131: `iinepm_get_buttons`; `x & MASK` is tested as `x &&& MASK ≠ 0`. -/
def iinepm_get_buttons (report : iinepm_drum_input_report) : Nat :=
  let buttons : Nat := 0
  let xbox_buttons : Nat := report.buttons % 2 ^ 16
  let buttons := if xbox_buttons &&& IINEPM_BUTTON_BIT_DPAD_UP ≠ 0 then buttons ||| BIT IINEPM_BUTTON_DPAD_UP else buttons
  let buttons := if xbox_buttons &&& IINEPM_BUTTON_BIT_DPAD_DOWN ≠ 0 then buttons ||| BIT IINEPM_BUTTON_DPAD_DOWN else buttons
  let buttons := if xbox_buttons &&& IINEPM_BUTTON_BIT_DPAD_LEFT ≠ 0 then buttons ||| BIT IINEPM_BUTTON_DPAD_LEFT else buttons
  let buttons := if xbox_buttons &&& IINEPM_BUTTON_BIT_DPAD_RIGHT ≠ 0 then buttons ||| BIT IINEPM_BUTTON_DPAD_RIGHT else buttons
  let buttons := if xbox_buttons &&& IINEPM_BUTTON_BIT_START ≠ 0 then buttons ||| BIT IINEPM_BUTTON_START else buttons
  let buttons := if xbox_buttons &&& IINEPM_BUTTON_BIT_BACK ≠ 0 then buttons ||| BIT IINEPM_BUTTON_BACK else buttons
  let buttons := if xbox_buttons &&& IINEPM_BUTTON_BIT_LEFT_THUMB ≠ 0 then buttons ||| BIT IINEPM_BUTTON_LEFT_THUMB else buttons
  let buttons := if xbox_buttons &&& IINEPM_BUTTON_BIT_RIGHT_THUMB ≠ 0 then buttons ||| BIT IINEPM_BUTTON_RIGHT_THUMB else buttons
  let buttons := if xbox_buttons &&& IINEPM_BUTTON_BIT_LEFT_SHOULDER ≠ 0 then buttons ||| BIT IINEPM_BUTTON_LEFT_SHOULDER else buttons
  let buttons := if xbox_buttons &&& IINEPM_BUTTON_BIT_RIGHT_SHOULDER ≠ 0 then buttons ||| BIT IINEPM_BUTTON_RIGHT_SHOULDER else buttons
  let buttons := if xbox_buttons &&& IINEPM_BUTTON_BIT_GUIDE ≠ 0 then buttons ||| BIT IINEPM_BUTTON_GUIDE else buttons
  let buttons := if xbox_buttons &&& IINEPM_BUTTON_BIT_A ≠ 0 then buttons ||| BIT IINEPM_BUTTON_A else buttons
  let buttons := if xbox_buttons &&& IINEPM_BUTTON_BIT_B ≠ 0 then buttons ||| BIT IINEPM_BUTTON_B else buttons
  let buttons := if xbox_buttons &&& IINEPM_BUTTON_BIT_X ≠ 0 then buttons ||| BIT IINEPM_BUTTON_X else buttons
  let buttons := if xbox_buttons &&& IINEPM_BUTTON_BIT_Y ≠ 0 then buttons ||| BIT IINEPM_BUTTON_Y else buttons
  buttons

/-- Modelled from the spec: `egc_device_driver_map_buttons` is declared in the absent
`driver_api.h`. Per the Button Mapper design: for each of the `count` native slots, test the
bit; if set, look up its abstract button in the table and add it to the output button word. -/
def egc_device_driver_map_buttons (P : egc_platform) (buttons : Nat) (count : Nat)
    (map : Nat → Option egc_gamepad_button_e) : Nat :=
  (List.range count).foldl
    (fun result i =>
      if buttons.testBit i then
        match map i with
        | some b => u32_of_nat (result ||| BIT (P.button b))
        | none => result
      else result)
    0

/-- Source lines 133-137: `iinepm_drum_velocity_to_s16`. The parameter is a `u8`, the
expression is evaluated in `int` with truncating division, the result is returned as `s16`. -/
def iinepm_drum_velocity_to_s16 (velocity : Nat) : Int :=
  let velocity : Int := ((velocity % 256 : Nat) : Int)
  s16_of_int (if velocity = 0 then -32768 else Int.tdiv (velocity * 65535) 255 - 32768)

/-! ## Device, session and host calls -/

/-- Source lines 56-59: the per-device session kept in `device->private_data`. -/
structure iinepm_drum_private_data_t where
  last_side_hit_intensity : Nat
  side_hit_active : Bool
  deriving DecidableEq, Repr

/-- The gamepad part of the host's `egc_input_state_t` that the driver fills: the button word
and the axis array (slot to value). -/
structure egc_input_state_t where
  buttons : Nat
  axes : Nat → Int

/-- Source lines 80-105: the fields of `egc_device_description_t` the driver initialises. -/
structure egc_device_description_t where
  vendor_id : Nat
  product_id : Nat
  available_buttons : Nat
  available_axes : Nat
  type : Nat
  num_touch_points : Nat
  num_leds : Nat
  num_accelerometers : Nat
  has_rumble : Bool
  deriving DecidableEq, Repr

/-- The fields of the host's `egc_input_device_t` the driver touches. -/
structure egc_input_device_t where
  desc : Option egc_device_description_t
  private_data : iinepm_drum_private_data_t
  deriving DecidableEq, Repr

/-- The fields of the host's `egc_usb_transfer_t` the driver reads: completion status, the
buffer (offset to byte) and the number of bytes received. -/
structure egc_usb_transfer_t where
  status : egc_usb_transfer_status_e
  data : Nat → Nat
  length : Nat

/-- The completion callbacks the driver hands to the transport. -/
inductive iinepm_callback_e
  | drum_intr_transfer_cb
  | iinepm_drum_init_cb
  deriving DecidableEq, Repr

/-- A call of the driver into the host, with its arguments. -/
inductive egc_call
  | printf (fmt : String) (args : List Int)
  | egc_device_driver_report_input (state : egc_input_state_t)
  | egc_device_driver_issue_intr_transfer_async (endpoint : Nat) (length : Nat)
      (callback : iinepm_callback_e)
  | egc_device_driver_issue_ctrl_transfer_async (requesttype request value index length : Nat)
      (callback : iinepm_callback_e)
  | egc_device_driver_set_timer (time_us : Nat) (repeat_time_us : Nat)

/-- The states handed to the input-reporting sink by a sequence of calls, in order. -/
def reported_states : List egc_call → List egc_input_state_t
  | [] => []
  | egc_call.egc_device_driver_report_input s :: rest => s :: reported_states rest
  | _ :: rest => reported_states rest

/-- Whether abstract button `b` is pressed in a reported state. -/
def egc_input_state_t.pressed (P : egc_platform) (s : egc_input_state_t)
    (b : egc_gamepad_button_e) : Bool :=
  s.buttons.testBit (P.button b)

/-- The value a reported state carries for axis `a`. -/
def egc_input_state_t.axis (P : egc_platform) (s : egc_input_state_t)
    (a : egc_gamepad_axis_e) : Int :=
  s.axes (P.axis a)

/-- Source lines 80-105: `s_device_description`. -/
def s_device_description (P : egc_platform) : egc_device_description_t :=
  { vendor_id := 0x056e
    product_id := 0x2004
    available_buttons :=
      BIT (P.button EGC_GAMEPAD_BUTTON_SOUTH) |||
      BIT (P.button EGC_GAMEPAD_BUTTON_EAST) |||
      BIT (P.button EGC_GAMEPAD_BUTTON_WEST) |||
      BIT (P.button EGC_GAMEPAD_BUTTON_NORTH) |||
      BIT (P.button EGC_GAMEPAD_BUTTON_LEFT_SHOULDER) |||
      BIT (P.button EGC_GAMEPAD_BUTTON_RIGHT_SHOULDER) |||
      BIT (P.button EGC_GAMEPAD_BUTTON_BACK) |||
      BIT (P.button EGC_GAMEPAD_BUTTON_START) |||
      BIT (P.button EGC_GAMEPAD_BUTTON_GUIDE) |||
      BIT (P.button EGC_GAMEPAD_BUTTON_DPAD_UP) |||
      BIT (P.button EGC_GAMEPAD_BUTTON_DPAD_DOWN) |||
      BIT (P.button EGC_GAMEPAD_BUTTON_DPAD_LEFT) |||
      BIT (P.button EGC_GAMEPAD_BUTTON_DPAD_RIGHT)
    available_axes :=
      BIT (P.axis EGC_GAMEPAD_AXIS_LEFT_TRIGGER) |||
      BIT (P.axis EGC_GAMEPAD_AXIS_RIGHT_TRIGGER)
    type := P.EGC_DEVICE_TYPE_GAMEPAD
    num_touch_points := 0
    num_leds := 0
    num_accelerometers := 0
    has_rumble := false }

/-! ## Polling (source lines 139-238) -/

/-- Source lines 227-238: `iinepm_drum_request_data`. `issued` tells whether the transport
returned a transfer (`true`) or `NULL`; the result is the calls made and the `int` returned. -/
def iinepm_drum_request_data (P : egc_platform) (issued : Bool) : List egc_call × Int :=
  let transfer :=
    egc_call.egc_device_driver_issue_intr_transfer_async (P.EGC_USB_ENDPOINT_IN ||| 1) 0
      iinepm_callback_e.drum_intr_transfer_cb
  if issued = false then
    ([transfer, egc_call.printf "Failed to issue USB interrupt transfer\n" []], -1)
  else
    ([transfer], 0)

/-- Source lines 146-147: the function-local statics of `drum_intr_transfer_cb`. -/
structure drum_intr_transfer_cb_statics where
  prev_data : Nat → Nat
  first_data : Bool

/-- The statics as the program starts: a zeroed buffer, `first_data = true`. -/
def drum_intr_transfer_cb_statics.initial : drum_intr_transfer_cb_statics :=
  { prev_data := fun _ => 0, first_data := true }

/-- Source lines 152-155: `idle_patterns`. -/
def idle_patterns : List (List Nat) :=
  [[0x00, 0x14, 0x00, 0x00, 0x00, 0x00, 0x00, 0x00, 0x00, 0xff, 0x00, 0x00, 0x00, 0xff, 0x00, 0x00, 0x00, 0x00, 0x00, 0x00],
   [0x00, 0x14, 0x00, 0x00, 0x00, 0xff, 0x00, 0x00, 0x00, 0xff, 0x00, 0x00, 0x00, 0xff, 0x00, 0x00, 0x00, 0x00, 0x00, 0x00]]

/-- The test `memcmp(a, b, n) != 0` on two buffers. -/
def memcmp_ne (a b : Nat → Nat) (n : Nat) : Bool :=
  (List.range n).any fun i => load_u8 a i != load_u8 b i

/-- The buffer `dst` after `memcpy(dst, src, n)`. -/
def memcpy (dst src : Nat → Nat) (n : Nat) : Nat → Nat :=
  fun i => if i < n then load_u8 src i else dst i

/-- Source lines 149-174: the diagnostic block of `drum_intr_transfer_cb`; it returns the new
statics and the lines printed. -/
def drum_intr_transfer_cb_debug (statics : drum_intr_transfer_cb_statics)
    (transfer : egc_usb_transfer_t) (report : iinepm_drum_input_report) :
    drum_intr_transfer_cb_statics × List egc_call :=
  if transfer.status = EGC_USB_TRANSFER_STATUS_COMPLETED ∧ transfer.length > 0 then
    if statics.first_data = true ∨ memcmp_ne transfer.data statics.prev_data transfer.length = true then
      let is_idle : Bool :=
        idle_patterns.any fun pattern => !memcmp_ne transfer.data (fun i => pattern.getD i 0) 20
      let printed : List egc_call :=
        if is_idle = false ∨ report.buttons ≠ 0x0000 ∨ report.left_trigger > 0 ∨
            report.right_trigger > 0 then
          (if report.buttons ≠ 0x0000 then
            [egc_call.printf "  -> BUTTON INPUT: buttons=0x%04x\n" [report.buttons]] else []) ++
          (if report.left_trigger > 0 then
            [egc_call.printf "  -> LEFT SIDE/RIM HIT: intensity=%d (0x%02x)\n"
              [report.left_trigger, report.left_trigger]] else []) ++
          (if report.right_trigger > 0 then
            [egc_call.printf "  -> RIGHT SIDE/RIM HIT: intensity=%d (0x%02x)\n"
              [report.right_trigger, report.right_trigger]] else [])
        else []
      ({ prev_data := memcpy statics.prev_data transfer.data transfer.length, first_data := false },
        printed)
    else (statics, [])
  else (statics, [])

/-- What one run of `drum_intr_transfer_cb` leaves behind: the statics, the device (with its
session) and the host calls made, in order. -/
structure drum_intr_transfer_cb_result where
  statics : drum_intr_transfer_cb_statics
  device : egc_input_device_t
  calls : List egc_call

/-- Source lines 139-211: `drum_intr_transfer_cb`. -/
def drum_intr_transfer_cb (P : egc_platform) (issued : Bool)
    (statics : drum_intr_transfer_cb_statics) (device : egc_input_device_t)
    (transfer : egc_usb_transfer_t) : drum_intr_transfer_cb_result :=
  let report := report_overlay P transfer.data
  let priv := device.private_data
  let state : egc_input_state_t := { buttons := 0, axes := fun _ => 0 }
  let debug := drum_intr_transfer_cb_debug statics transfer report
  let decoded : iinepm_drum_private_data_t × List egc_call :=
    if transfer.status = EGC_USB_TRANSFER_STATUS_COMPLETED ∧
        transfer.length ≥ sizeof_iinepm_drum_input_report then
      let buttons := iinepm_get_buttons report
      let state := { state with
        buttons := egc_device_driver_map_buttons P buttons IINEPM_BUTTON_COUNT s_button_map }
      let left : egc_input_state_t × iinepm_drum_private_data_t :=
        if report.left_trigger > 0 then
          ({ buttons := u32_of_nat (state.buttons ||| BIT (P.button EGC_GAMEPAD_BUTTON_LEFT_SHOULDER))
             axes := Function.update state.axes (P.axis EGC_GAMEPAD_AXIS_LEFT_TRIGGER)
               (iinepm_drum_velocity_to_s16 report.left_trigger) },
           { side_hit_active := true, last_side_hit_intensity := report.left_trigger })
        else if priv.side_hit_active = true then
          ({ state with
             axes := Function.update state.axes (P.axis EGC_GAMEPAD_AXIS_LEFT_TRIGGER) (-32768) },
           { priv with side_hit_active := false })
        else
          ({ state with
             axes := Function.update state.axes (P.axis EGC_GAMEPAD_AXIS_LEFT_TRIGGER) (-32768) },
           priv)
      let state := left.1
      let priv := left.2
      let right : egc_input_state_t × iinepm_drum_private_data_t :=
        if report.right_trigger > 0 then
          ({ buttons := u32_of_nat (state.buttons ||| BIT (P.button EGC_GAMEPAD_BUTTON_RIGHT_SHOULDER))
             axes := Function.update state.axes (P.axis EGC_GAMEPAD_AXIS_RIGHT_TRIGGER)
               (iinepm_drum_velocity_to_s16 report.right_trigger) },
           { side_hit_active := true, last_side_hit_intensity := report.right_trigger })
        else if priv.side_hit_active = true then
          ({ state with
             axes := Function.update state.axes (P.axis EGC_GAMEPAD_AXIS_RIGHT_TRIGGER) (-32768) },
           { priv with side_hit_active := false })
        else
          ({ state with
             axes := Function.update state.axes (P.axis EGC_GAMEPAD_AXIS_RIGHT_TRIGGER) (-32768) },
           priv)
      let state := right.1
      let priv := right.2
      (priv, [egc_call.egc_device_driver_report_input state])
    else (priv, [])
  { statics := debug.1
    device := { device with private_data := decoded.1 }
    calls := debug.2 ++ decoded.2 ++ (iinepm_drum_request_data P issued).1 }

/-- Source lines 213-225: `iinepm_drum_init_cb`, the completion of the handshake query. -/
def iinepm_drum_init_cb (P : egc_platform) (issued : Bool)
    (status : egc_usb_transfer_status_e) : List egc_call :=
  (if status = EGC_USB_TRANSFER_STATUS_COMPLETED then
    [egc_call.printf "initialization completed successfully\n" []]
  else
    [egc_call.printf "initialization failed with status: %d\n"
      [match status with
        | EGC_USB_TRANSFER_STATUS_COMPLETED => 0
        | EGC_USB_TRANSFER_STATUS_ERROR code => code]]) ++
  (iinepm_drum_request_data P issued).1

/-! ## Lifecycle entry points (source lines 240-292) -/

/-- Modelled from the spec: `egc_device_driver_is_compatible` is declared in the absent
`driver_api.h`; per the device-identity interface a device is accepted on an exact match of
vendor and product id with an entry of the list. -/
def egc_device_driver_is_compatible (vid pid : Nat) (compatible : List (Nat × Nat)) : Bool :=
  compatible.any fun id => id.1 == vid && id.2 == pid

/-- Source lines 240-247: `iinepm_drum_driver_ops_probe`. -/
def iinepm_drum_driver_ops_probe (vid pid : Nat) : Bool :=
  let compatible : List (Nat × Nat) := [(0x056e, 0x2004)]
  egc_device_driver_is_compatible (vid % 2 ^ 16) (pid % 2 ^ 16) compatible

/-- Source lines 249-259: `iinepm_drum_driver_ops_init`; returns the device, the calls made and
the `int` result. -/
def iinepm_drum_driver_ops_init (P : egc_platform) (device : egc_input_device_t)
    (vid pid : Nat) : egc_input_device_t × List egc_call × Int :=
  let priv_data := device.private_data
  let priv_data := { priv_data with last_side_hit_intensity := 0 }
  let priv_data := { priv_data with side_hit_active := false }
  ({ desc := some (s_device_description P), private_data := priv_data },
    [egc_call.egc_device_driver_set_timer (1000 * 500) 0], 0)

/-- Source lines 261-279: `iinepm_drum_driver_ops_timer`. `ctrl_issued` and `intr_issued` tell
whether the transport returned a transfer for the control query and for the interrupt read;
the `int` of `iinepm_drum_request_data` is returned as `bool`. -/
def iinepm_drum_driver_ops_timer (P : egc_platform) (ctrl_issued intr_issued : Bool) :
    List egc_call × Bool :=
  let transfer :=
    egc_call.egc_device_driver_issue_ctrl_transfer_async
      (P.EGC_USB_CTRLTYPE_DIR_DEVICE2HOST ||| P.EGC_USB_CTRLTYPE_TYPE_CLASS |||
        P.EGC_USB_CTRLTYPE_REC_INTERFACE)
      P.EGC_USB_REQ_GETREPORT
      ((P.EGC_USB_REPTYPE_INPUT <<< 8) ||| 0x00)
      0
      0
      iinepm_callback_e.iinepm_drum_init_cb
  if ctrl_issued = false then
    let requested := iinepm_drum_request_data P intr_issued
    (transfer :: egc_call.printf "Failed to issue Xbox 360 initialization transfer\n" [] ::
      requested.1, decide (requested.2 ≠ 0))
  else
    ([transfer], false)

/-- Source lines 281-285: `iinepm_drum_driver_ops_disconnect`. -/
def iinepm_drum_driver_ops_disconnect : List egc_call × Int :=
  ([egc_call.printf "Device disconnected\n" []], 0)

/-! ## A concrete platform

Enumerators numbered in the order the driver lists them, a little-endian target, and the usual
USB constants; used to evaluate the driver on concrete inputs. -/

def example_platform : egc_platform :=
  { button := fun b =>
      match b with
      | EGC_GAMEPAD_BUTTON_SOUTH => 0
      | EGC_GAMEPAD_BUTTON_EAST => 1
      | EGC_GAMEPAD_BUTTON_WEST => 2
      | EGC_GAMEPAD_BUTTON_NORTH => 3
      | EGC_GAMEPAD_BUTTON_LEFT_SHOULDER => 4
      | EGC_GAMEPAD_BUTTON_RIGHT_SHOULDER => 5
      | EGC_GAMEPAD_BUTTON_BACK => 6
      | EGC_GAMEPAD_BUTTON_START => 7
      | EGC_GAMEPAD_BUTTON_GUIDE => 8
      | EGC_GAMEPAD_BUTTON_DPAD_UP => 9
      | EGC_GAMEPAD_BUTTON_DPAD_DOWN => 10
      | EGC_GAMEPAD_BUTTON_DPAD_LEFT => 11
      | EGC_GAMEPAD_BUTTON_DPAD_RIGHT => 12
    axis := fun a =>
      match a with
      | EGC_GAMEPAD_AXIS_LEFT_TRIGGER => 0
      | EGC_GAMEPAD_AXIS_RIGHT_TRIGGER => 1
    big_endian := false
    EGC_USB_ENDPOINT_IN := 0x80
    EGC_USB_CTRLTYPE_DIR_DEVICE2HOST := 0x80
    EGC_USB_CTRLTYPE_TYPE_CLASS := 0x20
    EGC_USB_CTRLTYPE_REC_INTERFACE := 0x01
    EGC_USB_REQ_GETREPORT := 0x01
    EGC_USB_REPTYPE_INPUT := 0x01
    EGC_DEVICE_TYPE_GAMEPAD := 0 }

/-- A buffer holding the given bytes, zero beyond them. -/
def buffer_of (bytes : List Nat) : Nat → Nat := fun i => bytes.getD i 0

/-- A completed 20-byte transfer with the given button mask (little-endian at bytes 2-3) and
hit intensities, all other bytes as in the idle report. -/
def example_transfer (buttons left right : Nat) : egc_usb_transfer_t :=
  { status := EGC_USB_TRANSFER_STATUS_COMPLETED
    data := buffer_of [0x00, 0x14, buttons % 256, buttons / 256 % 256, left, right,
      0, 0, 0, 0xff, 0, 0, 0, 0xff, 0, 0, 0, 0, 0, 0]
    length := 20 }

/-- A device whose session has the given contents. -/
def example_device (active : Bool) (last : Nat) : egc_input_device_t :=
  { desc := none, private_data := { last_side_hit_intensity := last, side_hit_active := active } }


/-! ## Vocabulary of the statements -/

/-- The intensity a report carries for the channel of trigger axis `ch`. -/
def iinepm_drum_input_report.intensity (report : iinepm_drum_input_report)
    (ch : egc_gamepad_axis_e) : Nat :=
  match ch with
  | EGC_GAMEPAD_AXIS_LEFT_TRIGGER => report.left_trigger
  | EGC_GAMEPAD_AXIS_RIGHT_TRIGGER => report.right_trigger

/-- The abstract shoulder button of the channel of trigger axis `ch`. -/
def shoulder_of (ch : egc_gamepad_axis_e) : egc_gamepad_button_e :=
  match ch with
  | EGC_GAMEPAD_AXIS_LEFT_TRIGGER => EGC_GAMEPAD_BUTTON_LEFT_SHOULDER
  | EGC_GAMEPAD_AXIS_RIGHT_TRIGGER => EGC_GAMEPAD_BUTTON_RIGHT_SHOULDER

/-- The native shoulder bit of the channel of trigger axis `ch`. -/
def native_shoulder_bit (ch : egc_gamepad_axis_e) : Nat :=
  match ch with
  | EGC_GAMEPAD_AXIS_LEFT_TRIGGER => IINEPM_BUTTON_BIT_LEFT_SHOULDER
  | EGC_GAMEPAD_AXIS_RIGHT_TRIGGER => IINEPM_BUTTON_BIT_RIGHT_SHOULDER

/-- The other channel. -/
def other_channel (ch : egc_gamepad_axis_e) : egc_gamepad_axis_e :=
  match ch with
  | EGC_GAMEPAD_AXIS_LEFT_TRIGGER => EGC_GAMEPAD_AXIS_RIGHT_TRIGGER
  | EGC_GAMEPAD_AXIS_RIGHT_TRIGGER => EGC_GAMEPAD_AXIS_LEFT_TRIGGER

/-- A usable completion: status `COMPLETED` and at least the 20 bytes of a report. -/
def egc_usb_transfer_t.usable (transfer : egc_usb_transfer_t) : Prop :=
  transfer.status = EGC_USB_TRANSFER_STATUS_COMPLETED ∧
    sizeof_iinepm_drum_input_report ≤ transfer.length

instance (transfer : egc_usb_transfer_t) : Decidable transfer.usable := by
  unfold egc_usb_transfer_t.usable; infer_instance

/-- What the host observes of one channel in a reported state: the trigger axis value and
whether the shoulder button is pressed. -/
def channel_view (P : egc_platform) (ch : egc_gamepad_axis_e) (s : egc_input_state_t) :
    Int × Bool :=
  (s.axis P ch, s.pressed P (shoulder_of ch))

/-- The polling loop: the transport delivers the completions one after the other, each to
`drum_intr_transfer_cb`, each paired with the outcome of issuing the next read. -/
def drum_polling (P : egc_platform) :
    drum_intr_transfer_cb_statics → egc_input_device_t → List (Bool × egc_usb_transfer_t) →
      drum_intr_transfer_cb_result
  | statics, device, [] => { statics := statics, device := device, calls := [] }
  | statics, device, (issued, transfer) :: rest =>
    let first := drum_intr_transfer_cb P issued statics device transfer
    let then_ := drum_polling P first.statics first.device rest
    { then_ with calls := first.calls ++ then_.calls }

/-- A usable completion with no native button set, intensity `v` on channel `ch` and 0 on the
other channel. -/
def egc_usb_transfer_t.carries_on (P : egc_platform) (transfer : egc_usb_transfer_t)
    (ch : egc_gamepad_axis_e) (v : Nat) : Prop :=
  transfer.usable ∧ (report_overlay P transfer.data).buttons = 0 ∧
    (report_overlay P transfer.data).intensity ch = v ∧
    (report_overlay P transfer.data).intensity (other_channel ch) = 0

instance (P : egc_platform) (transfer : egc_usb_transfer_t) (ch : egc_gamepad_axis_e) (v : Nat) :
    Decidable (transfer.carries_on P ch v) := by
  unfold egc_usb_transfer_t.carries_on; infer_instance

/-! ## Closed form of one usable poll -/

/-- The button word of the state reported for a usable poll, in closed form. -/
def polled_buttons (P : egc_platform) (report : iinepm_drum_input_report) : Nat :=
  let mapped :=
    egc_device_driver_map_buttons P (iinepm_get_buttons report) IINEPM_BUTTON_COUNT s_button_map
  let with_left :=
    if report.left_trigger > 0 then
      u32_of_nat (mapped ||| BIT (P.button EGC_GAMEPAD_BUTTON_LEFT_SHOULDER))
    else mapped
  if report.right_trigger > 0 then
    u32_of_nat (with_left ||| BIT (P.button EGC_GAMEPAD_BUTTON_RIGHT_SHOULDER))
  else with_left

/-- The axis array of the state reported for a usable poll, in closed form. -/
def polled_axes (P : egc_platform) (report : iinepm_drum_input_report) : Nat → Int :=
  Function.update
    (Function.update (fun _ => 0) (P.axis EGC_GAMEPAD_AXIS_LEFT_TRIGGER)
      (if report.left_trigger > 0 then iinepm_drum_velocity_to_s16 report.left_trigger
        else -32768))
    (P.axis EGC_GAMEPAD_AXIS_RIGHT_TRIGGER)
    (if report.right_trigger > 0 then iinepm_drum_velocity_to_s16 report.right_trigger
      else -32768)

/-- The session after a usable poll, in closed form. -/
def polled_session (priv : iinepm_drum_private_data_t) (report : iinepm_drum_input_report) :
    iinepm_drum_private_data_t :=
  { side_hit_active := decide (report.right_trigger > 0)
    last_side_hit_intensity :=
      if report.right_trigger > 0 then report.right_trigger
      else if report.left_trigger > 0 then report.left_trigger
      else priv.last_side_hit_intensity }

/-- The native mask bit the driver tests for native slot `slot` (source lines 114-128). -/
def native_bit_of_slot (slot : Nat) : Nat :=
  if slot = IINEPM_BUTTON_DPAD_UP then IINEPM_BUTTON_BIT_DPAD_UP
  else if slot = IINEPM_BUTTON_DPAD_DOWN then IINEPM_BUTTON_BIT_DPAD_DOWN
  else if slot = IINEPM_BUTTON_DPAD_LEFT then IINEPM_BUTTON_BIT_DPAD_LEFT
  else if slot = IINEPM_BUTTON_DPAD_RIGHT then IINEPM_BUTTON_BIT_DPAD_RIGHT
  else if slot = IINEPM_BUTTON_START then IINEPM_BUTTON_BIT_START
  else if slot = IINEPM_BUTTON_BACK then IINEPM_BUTTON_BIT_BACK
  else if slot = IINEPM_BUTTON_LEFT_THUMB then IINEPM_BUTTON_BIT_LEFT_THUMB
  else if slot = IINEPM_BUTTON_RIGHT_THUMB then IINEPM_BUTTON_BIT_RIGHT_THUMB
  else if slot = IINEPM_BUTTON_LEFT_SHOULDER then IINEPM_BUTTON_BIT_LEFT_SHOULDER
  else if slot = IINEPM_BUTTON_RIGHT_SHOULDER then IINEPM_BUTTON_BIT_RIGHT_SHOULDER
  else if slot = IINEPM_BUTTON_GUIDE then IINEPM_BUTTON_BIT_GUIDE
  else if slot = IINEPM_BUTTON_A then IINEPM_BUTTON_BIT_A
  else if slot = IINEPM_BUTTON_B then IINEPM_BUTTON_BIT_B
  else if slot = IINEPM_BUTTON_X then IINEPM_BUTTON_BIT_X
  else if slot = IINEPM_BUTTON_Y then IINEPM_BUTTON_BIT_Y
  else 0

/-! ## Host calls by kind -/

/-- Whether a call issues an asynchronous interrupt transfer. -/
def egc_call.is_intr_issue : egc_call → Bool
  | egc_call.egc_device_driver_issue_intr_transfer_async _ _ _ => true
  | _ => false

/-- Whether a call issues an asynchronous control transfer. -/
def egc_call.is_ctrl_issue : egc_call → Bool
  | egc_call.egc_device_driver_issue_ctrl_transfer_async _ _ _ _ _ _ => true
  | _ => false

/-- Whether a call hands a state to the input-reporting sink. -/
def egc_call.is_report_input : egc_call → Bool
  | egc_call.egc_device_driver_report_input _ => true
  | _ => false

/-- Whether a call arms the device timer. -/
def egc_call.is_set_timer : egc_call → Bool
  | egc_call.egc_device_driver_set_timer _ _ => true
  | _ => false

/-- The interrupt read every completion re-arms: IN endpoint 1, no buffer, completion
delivered to `drum_intr_transfer_cb` (source lines 229-230). -/
def next_interrupt_read (P : egc_platform) : egc_call :=
  egc_call.egc_device_driver_issue_intr_transfer_async (P.EGC_USB_ENDPOINT_IN ||| 1) 0
    iinepm_callback_e.drum_intr_transfer_cb

/-- Modelled from the spec: what the host keeps for one device, per the concurrency and
resource model: the device with its session, the driver's statics, whether the one-shot timer is
armed, and the numbers of control and interrupt transfers issued and not yet completed. The
host scheduler and transport are not among the sources. -/
structure lifecycle_state where
  device : egc_input_device_t
  statics : drum_intr_transfer_cb_statics
  timer_armed : Bool
  ctrl_outstanding : Nat
  intr_outstanding : Nat

/-- Modelled from the spec: the host's bookkeeping of one driver call. Arming the timer sets
`timer_armed`; an issue call adds an outstanding transfer when the transport accepted it
(`ctrl_issued`, `intr_issued`); other calls change nothing. -/
def host_account (ctrl_issued intr_issued : Bool) (s : lifecycle_state) :
    egc_call → lifecycle_state
  | egc_call.egc_device_driver_set_timer _ _ => { s with timer_armed := true }
  | egc_call.egc_device_driver_issue_intr_transfer_async _ _ _ =>
    if intr_issued = true then { s with intr_outstanding := s.intr_outstanding + 1 } else s
  | egc_call.egc_device_driver_issue_ctrl_transfer_async _ _ _ _ _ _ =>
    if ctrl_issued = true then { s with ctrl_outstanding := s.ctrl_outstanding + 1 } else s
  | egc_call.printf _ _ => s
  | egc_call.egc_device_driver_report_input _ => s

/-- What the host does to the device after init: the timer fires, a control transfer completes,
an interrupt transfer completes, or the device is disconnected. Each carries what the
environment decides: the completed transfer and whether the transport accepts the transfers
the handler issues. -/
inductive lifecycle_event
  | timer_fire (ctrl_issued intr_issued : Bool)
  | ctrl_complete (status : egc_usb_transfer_status_e) (intr_issued : Bool)
  | intr_complete (transfer : egc_usb_transfer_t) (intr_issued : Bool)
  | disconnect

/-- Modelled from the spec: the lifecycle state right after the host has called
`iinepm_drum_driver_ops_init` on a device with no transfer outstanding. -/
def lifecycle_start (P : egc_platform) (device : egc_input_device_t) (vid pid : Nat)
    (statics : drum_intr_transfer_cb_statics) : lifecycle_state :=
  let r := iinepm_drum_driver_ops_init P device vid pid
  r.2.1.foldl (host_account true true)
    { device := r.1, statics := statics, timer_armed := false, ctrl_outstanding := 0,
      intr_outstanding := 0 }

/-- Modelled from the spec: one step of the lifecycle. The timer fires only while armed and is
one-shot; with `keep = true` the host keeps it armed when the handler returns `true`, with
`keep = false` it never does. A completion callback is delivered only for a transfer that was
issued and has not completed yet, and takes it off the outstanding count before the handler
runs. `none` when the host cannot take the step. -/
def lifecycle_step (P : egc_platform) (keep : Bool) (s : lifecycle_state) :
    lifecycle_event → Option lifecycle_state
  | lifecycle_event.timer_fire ctrl_issued intr_issued =>
    if s.timer_armed = true then
      let r := iinepm_drum_driver_ops_timer P ctrl_issued intr_issued
      some (r.1.foldl (host_account ctrl_issued intr_issued)
        { s with timer_armed := keep && r.2 })
    else none
  | lifecycle_event.ctrl_complete status intr_issued =>
    if s.ctrl_outstanding > 0 then
      some ((iinepm_drum_init_cb P intr_issued status).foldl (host_account true intr_issued)
        { s with ctrl_outstanding := s.ctrl_outstanding - 1 })
    else none
  | lifecycle_event.intr_complete transfer intr_issued =>
    if s.intr_outstanding > 0 then
      let r := drum_intr_transfer_cb P intr_issued s.statics s.device transfer
      some (r.calls.foldl (host_account true intr_issued)
        { s with
          device := r.device, statics := r.statics,
          intr_outstanding := s.intr_outstanding - 1 })
    else none
  | lifecycle_event.disconnect =>
    some (iinepm_drum_driver_ops_disconnect.1.foldl (host_account true true) s)

/-- A run of the lifecycle: the steps taken one after the other; `none` when some step cannot be
taken. -/
def lifecycle_run (P : egc_platform) (keep : Bool) :
    lifecycle_state → List lifecycle_event → Option lifecycle_state
  | s, [] => some s
  | s, e :: es =>
    match lifecycle_step P keep s e with
    | none => none
    | some s' => lifecycle_run P keep s' es

theorem reported_states_append (xs ys : List egc_call) :
    reported_states (xs ++ ys) = reported_states xs ++ reported_states ys := by
  induction xs with
  | nil => rfl
  | cons c cs ih => cases c <;> simp [reported_states, ih]

theorem reported_states_request_data (P : egc_platform) (issued : Bool) :
    reported_states (iinepm_drum_request_data P issued).1 = [] := by
  cases issued <;> simp [iinepm_drum_request_data, reported_states]

theorem reported_states_debug (statics : drum_intr_transfer_cb_statics)
    (transfer : egc_usb_transfer_t) (report : iinepm_drum_input_report) :
    reported_states (drum_intr_transfer_cb_debug statics transfer report).2 = [] := by
  unfold drum_intr_transfer_cb_debug
  split
  · split
    · simp only []
      split
      · simp only [reported_states_append]
        split <;> split <;> split <;> simp [reported_states]
      · rfl
    · rfl
  · rfl

theorem velocity_to_s16_linear (v : Nat) (hv : v ≤ 255) :
    iinepm_drum_velocity_to_s16 v = 257 * (v : Int) - 32768 := by
  unfold iinepm_drum_velocity_to_s16 s16_of_int
  have hmod : v % 256 = v := Nat.mod_eq_of_lt (by omega)
  simp only [hmod]
  rw [Int.tdiv_eq_ediv (by positivity) (by norm_num)]
  split <;> omega

theorem drum_intr_transfer_cb_usable (P : egc_platform) (issued : Bool)
    (statics : drum_intr_transfer_cb_statics) (device : egc_input_device_t)
    (transfer : egc_usb_transfer_t) (h : transfer.usable) :
    reported_states (drum_intr_transfer_cb P issued statics device transfer).calls =
        [{ buttons := polled_buttons P (report_overlay P transfer.data)
           axes := polled_axes P (report_overlay P transfer.data) }] ∧
      (drum_intr_transfer_cb P issued statics device transfer).device =
        { device with
          private_data := polled_session device.private_data (report_overlay P transfer.data) } := by
  obtain ⟨hs, hl⟩ := h
  have hc : transfer.length ≥ sizeof_iinepm_drum_input_report := hl
  obtain ⟨desc, ⟨last, active⟩⟩ := device
  simp only [drum_intr_transfer_cb, hs, hc, and_self, if_true, reported_states_append,
    reported_states_debug, reported_states_request_data, reported_states, List.nil_append,
    List.append_nil, polled_buttons, polled_axes, polled_session]
  by_cases hlt : (report_overlay P transfer.data).left_trigger > 0 <;>
    by_cases hrt : (report_overlay P transfer.data).right_trigger > 0 <;>
    cases active <;>
    simp [hlt, hrt]

theorem testBit_ite_or_BIT (c : Prop) [Decidable c] (x k i : Nat) :
    (if c then x ||| BIT k else x).testBit i = (x.testBit i || (decide c && decide (k = i))) := by
  split <;> simp [BIT, Nat.testBit_or, Nat.testBit_two_pow, *]

theorem iinepm_get_buttons_testBit (report : iinepm_drum_input_report) (slot : Nat) :
    (iinepm_get_buttons report).testBit slot =
      (decide (slot < IINEPM_BUTTON_COUNT) &&
        decide (report.buttons % 2 ^ 16 &&& native_bit_of_slot slot ≠ 0)) := by
  simp only [iinepm_get_buttons, testBit_ite_or_BIT, Nat.zero_testBit, Bool.false_or]
  by_cases h : slot < 15
  · interval_cases slot <;>
      simp [native_bit_of_slot, IINEPM_BUTTON_COUNT, IINEPM_BUTTON_DPAD_UP, IINEPM_BUTTON_DPAD_DOWN,
        IINEPM_BUTTON_DPAD_LEFT, IINEPM_BUTTON_DPAD_RIGHT, IINEPM_BUTTON_START, IINEPM_BUTTON_BACK,
        IINEPM_BUTTON_LEFT_THUMB, IINEPM_BUTTON_RIGHT_THUMB, IINEPM_BUTTON_LEFT_SHOULDER,
        IINEPM_BUTTON_RIGHT_SHOULDER, IINEPM_BUTTON_GUIDE, IINEPM_BUTTON_A, IINEPM_BUTTON_B,
        IINEPM_BUTTON_X, IINEPM_BUTTON_Y]
  · have h0 : ∀ k, k < 15 → decide (k = slot) = false := by
      intro k hk; simp; omega
    simp [IINEPM_BUTTON_COUNT, IINEPM_BUTTON_DPAD_UP, IINEPM_BUTTON_DPAD_DOWN,
        IINEPM_BUTTON_DPAD_LEFT, IINEPM_BUTTON_DPAD_RIGHT, IINEPM_BUTTON_START, IINEPM_BUTTON_BACK,
        IINEPM_BUTTON_LEFT_THUMB, IINEPM_BUTTON_RIGHT_THUMB, IINEPM_BUTTON_LEFT_SHOULDER,
        IINEPM_BUTTON_RIGHT_SHOULDER, IINEPM_BUTTON_GUIDE, IINEPM_BUTTON_A, IINEPM_BUTTON_B,
        IINEPM_BUTTON_X, IINEPM_BUTTON_Y, h, h0]

theorem u32_of_nat_or_BIT_lt (x k : Nat) : u32_of_nat (x ||| BIT k) < 2 ^ 32 :=
  Nat.mod_lt _ (by norm_num)

theorem u32_of_nat_or_BIT_testBit (x k i : Nat) (hx : x < 2 ^ 32) (hk : k < 32) :
    (u32_of_nat (x ||| BIT k)).testBit i = (x.testBit i || decide (k = i)) := by
  have hb : BIT k < 2 ^ 32 := by
    unfold BIT; exact Nat.pow_lt_pow_right (by norm_num) hk
  have hlt : x ||| BIT k < 2 ^ 32 := Nat.or_lt_two_pow hx hb
  rw [u32_of_nat, Nat.mod_eq_of_lt hlt]
  simp [BIT, Nat.testBit_or, Nat.testBit_two_pow]

theorem map_buttons_fold_lt (P : egc_platform) (buttons : Nat)
    (map : Nat → Option egc_gamepad_button_e) (l : List Nat) (acc : Nat) (hacc : acc < 2 ^ 32) :
    l.foldl
      (fun result i =>
        if buttons.testBit i then
          match map i with
          | some b => u32_of_nat (result ||| BIT (P.button b))
          | none => result
        else result) acc < 2 ^ 32 := by
  induction l generalizing acc with
  | nil => simpa using hacc
  | cons s rest ih =>
    rw [List.foldl_cons]
    apply ih
    split
    · split
      · exact u32_of_nat_or_BIT_lt _ _
      · exact hacc
    · exact hacc

theorem map_buttons_fold_testBit (P : egc_platform) (hlt : ∀ b, P.button b < 32) (buttons : Nat)
    (map : Nat → Option egc_gamepad_button_e) (l : List Nat) (acc : Nat) (hacc : acc < 2 ^ 32)
    (i : Nat) :
    (l.foldl
      (fun result i =>
        if buttons.testBit i then
          match map i with
          | some b => u32_of_nat (result ||| BIT (P.button b))
          | none => result
        else result) acc).testBit i = true ↔
      acc.testBit i = true ∨
        ∃ slot ∈ l, buttons.testBit slot = true ∧ ∃ b, map slot = some b ∧ P.button b = i := by
  induction l generalizing acc with
  | nil => simp
  | cons s rest ih =>
    rw [List.foldl_cons]
    by_cases hbit : buttons.testBit s = true
    · cases hm : map s with
      | none =>
        simp only [hbit, if_true, hm]
        rw [ih acc hacc]
        constructor
        · rintro (h | ⟨slot, hmem, hrest⟩)
          · exact Or.inl h
          · exact Or.inr ⟨slot, List.mem_cons_of_mem _ hmem, hrest⟩
        · rintro (h | ⟨slot, hmem, hb, b, hmap, hbi⟩)
          · exact Or.inl h
          · rcases List.mem_cons.1 hmem with rfl | hmem
            · rw [hm] at hmap; cases hmap
            · exact Or.inr ⟨slot, hmem, hb, b, hmap, hbi⟩
      | some b =>
        simp only [hbit, if_true, hm]
        rw [ih _ (u32_of_nat_or_BIT_lt _ _), u32_of_nat_or_BIT_testBit _ _ _ hacc (hlt b)]
        constructor
        · rintro (h | ⟨slot, hmem, hrest⟩)
          · rw [Bool.or_eq_true] at h
            rcases h with h | h
            · exact Or.inl h
            · exact Or.inr ⟨s, List.mem_cons_self _ _, hbit, b, hm, of_decide_eq_true h⟩
          · exact Or.inr ⟨slot, List.mem_cons_of_mem _ hmem, hrest⟩
        · rintro (h | ⟨slot, hmem, hb, b', hmap, hbi⟩)
          · exact Or.inl (by simp [h])
          · rcases List.mem_cons.1 hmem with rfl | hmem
            · rw [hm] at hmap
              cases hmap
              exact Or.inl (by simp [hbi])
            · exact Or.inr ⟨slot, hmem, hb, b', hmap, hbi⟩
    · simp only [hbit]
      rw [if_neg (by simp), ih acc hacc]
      constructor
      · rintro (h | ⟨slot, hmem, hrest⟩)
        · exact Or.inl h
        · exact Or.inr ⟨slot, List.mem_cons_of_mem _ hmem, hrest⟩
      · rintro (h | ⟨slot, hmem, hb, hrest⟩)
        · exact Or.inl h
        · rcases List.mem_cons.1 hmem with rfl | hmem
          · exact absurd hb hbit
          · exact Or.inr ⟨slot, hmem, hb, hrest⟩

theorem egc_device_driver_map_buttons_lt (P : egc_platform) (buttons count : Nat)
    (map : Nat → Option egc_gamepad_button_e) :
    egc_device_driver_map_buttons P buttons count map < 2 ^ 32 :=
  map_buttons_fold_lt P buttons map (List.range count) 0 (by norm_num)

theorem egc_device_driver_map_buttons_testBit (P : egc_platform) (hlt : ∀ b, P.button b < 32)
    (buttons count : Nat) (map : Nat → Option egc_gamepad_button_e) (i : Nat) :
    (egc_device_driver_map_buttons P buttons count map).testBit i = true ↔
      ∃ slot, slot < count ∧ buttons.testBit slot = true ∧
        ∃ b, map slot = some b ∧ P.button b = i := by
  unfold egc_device_driver_map_buttons
  rw [map_buttons_fold_testBit P hlt buttons map (List.range count) 0 (by norm_num) i]
  simp [List.mem_range]

theorem polled_buttons_lt (P : egc_platform) (report : iinepm_drum_input_report) :
    polled_buttons P report < 2 ^ 32 := by
  unfold polled_buttons
  simp only []
  split
  · exact u32_of_nat_or_BIT_lt _ _
  · split
    · exact u32_of_nat_or_BIT_lt _ _
    · exact egc_device_driver_map_buttons_lt _ _ _ _

/-- The bits of the reported button word: a bit is set exactly when it is the value of an
abstract button that a set native bit maps to, or of a shoulder button whose channel is hit. -/
theorem polled_buttons_testBit (P : egc_platform) (hlt : ∀ b, P.button b < 32)
    (report : iinepm_drum_input_report) (i : Nat) :
    (polled_buttons P report).testBit i = true ↔
      (∃ slot, slot < IINEPM_BUTTON_COUNT ∧
        report.buttons % 2 ^ 16 &&& native_bit_of_slot slot ≠ 0 ∧
        ∃ b, s_button_map slot = some b ∧ P.button b = i) ∨
      (report.left_trigger > 0 ∧ P.button EGC_GAMEPAD_BUTTON_LEFT_SHOULDER = i) ∨
      (report.right_trigger > 0 ∧ P.button EGC_GAMEPAD_BUTTON_RIGHT_SHOULDER = i) := by
  have hm := egc_device_driver_map_buttons_testBit P hlt (iinepm_get_buttons report)
    IINEPM_BUTTON_COUNT s_button_map i
  have hmlt := egc_device_driver_map_buttons_lt P (iinepm_get_buttons report)
    IINEPM_BUTTON_COUNT s_button_map
  have hslot : (∃ slot, slot < IINEPM_BUTTON_COUNT ∧
        (iinepm_get_buttons report).testBit slot = true ∧
        ∃ b, s_button_map slot = some b ∧ P.button b = i) ↔
      (∃ slot, slot < IINEPM_BUTTON_COUNT ∧
        report.buttons % 2 ^ 16 &&& native_bit_of_slot slot ≠ 0 ∧
        ∃ b, s_button_map slot = some b ∧ P.button b = i) := by
    constructor
    · rintro ⟨slot, hs, hb, hrest⟩
      rw [iinepm_get_buttons_testBit] at hb
      simp only [Bool.and_eq_true, decide_eq_true_eq] at hb
      exact ⟨slot, hs, hb.2, hrest⟩
    · rintro ⟨slot, hs, hb, hrest⟩
      refine ⟨slot, hs, ?_, hrest⟩
      rw [iinepm_get_buttons_testBit]
      simp only [Bool.and_eq_true, decide_eq_true_eq]
      exact ⟨hs, hb⟩
  rw [← hslot, ← hm]
  unfold polled_buttons
  simp only []
  by_cases hl : report.left_trigger > 0 <;> by_cases hr : report.right_trigger > 0
  · rw [if_pos hr, if_pos hl,
      u32_of_nat_or_BIT_testBit _ _ _ (u32_of_nat_or_BIT_lt _ _) (hlt _),
      u32_of_nat_or_BIT_testBit _ _ _ hmlt (hlt _)]
    simp [hl, hr, or_assoc]
  · rw [if_neg hr, if_pos hl, u32_of_nat_or_BIT_testBit _ _ _ hmlt (hlt _)]
    simp [hl, hr]
  · rw [if_pos hr, if_neg hl, u32_of_nat_or_BIT_testBit _ _ _ hmlt (hlt _)]
    simp [hl, hr]
  · rw [if_neg hr, if_neg hl]
    simp [hl, hr]

/-- Whether an abstract button is pressed in the reported state, on a valid platform. -/
theorem polled_buttons_pressed (P : egc_platform) (hP : P.valid)
    (report : iinepm_drum_input_report) (a : egc_gamepad_button_e) :
    (polled_buttons P report).testBit (P.button a) = true ↔
      (∃ slot, slot < IINEPM_BUTTON_COUNT ∧
        report.buttons % 2 ^ 16 &&& native_bit_of_slot slot ≠ 0 ∧ s_button_map slot = some a) ∨
      (report.left_trigger > 0 ∧ a = EGC_GAMEPAD_BUTTON_LEFT_SHOULDER) ∨
      (report.right_trigger > 0 ∧ a = EGC_GAMEPAD_BUTTON_RIGHT_SHOULDER) := by
  obtain ⟨hlt, hinj, _⟩ := hP
  rw [polled_buttons_testBit P hlt]
  constructor
  · rintro (⟨slot, hs, hb, b, hmap, hbi⟩ | ⟨h, hbi⟩ | ⟨h, hbi⟩)
    · exact Or.inl ⟨slot, hs, hb, by rw [hmap, hinj _ _ hbi]⟩
    · exact Or.inr (Or.inl ⟨h, (hinj _ _ hbi).symm⟩)
    · exact Or.inr (Or.inr ⟨h, (hinj _ _ hbi).symm⟩)
  · rintro (⟨slot, hs, hb, hmap⟩ | ⟨h, rfl⟩ | ⟨h, rfl⟩)
    · exact Or.inl ⟨slot, hs, hb, a, hmap, rfl⟩
    · exact Or.inr (Or.inl ⟨h, rfl⟩)
    · exact Or.inr (Or.inr ⟨h, rfl⟩)

theorem polled_axes_left (P : egc_platform) (hP : P.valid) (report : iinepm_drum_input_report) :
    polled_axes P report (P.axis EGC_GAMEPAD_AXIS_LEFT_TRIGGER) =
      if report.left_trigger > 0 then iinepm_drum_velocity_to_s16 report.left_trigger
      else -32768 := by
  unfold polled_axes
  rw [Function.update_noteq hP.2.2, Function.update_same]

theorem polled_axes_right (P : egc_platform) (report : iinepm_drum_input_report) :
    polled_axes P report (P.axis EGC_GAMEPAD_AXIS_RIGHT_TRIGGER) =
      if report.right_trigger > 0 then iinepm_drum_velocity_to_s16 report.right_trigger
      else -32768 := by
  unfold polled_axes
  rw [Function.update_same]

theorem exists_native_slot_iff (Q : Nat → Prop) :
    (∃ slot, slot < IINEPM_BUTTON_COUNT ∧ Q slot) ↔
      Q 0 ∨ Q 1 ∨ Q 2 ∨ Q 3 ∨ Q 4 ∨ Q 5 ∨ Q 6 ∨ Q 7 ∨ Q 8 ∨ Q 9 ∨ Q 10 ∨ Q 11 ∨ Q 12 ∨ Q 13 ∨
        Q 14 := by
  constructor
  · rintro ⟨slot, hs, hq⟩
    simp only [IINEPM_BUTTON_COUNT] at hs
    interval_cases slot <;> simp [hq]
  · rintro (h | h | h | h | h | h | h | h | h | h | h | h | h | h | h) <;>
      exact ⟨_, by simp [IINEPM_BUTTON_COUNT], h⟩

theorem report_overlay_buttons_lt (P : egc_platform) (data : Nat → Nat) :
    (report_overlay P data).buttons < 2 ^ 16 := by
  simp only [report_overlay, load_u16, load_u8]
  split <;> omega

theorem native_A_slot (slot : Nat) (hs : slot < IINEPM_BUTTON_COUNT) :
    0x1000 % 2 ^ 16 &&& native_bit_of_slot slot ≠ 0 ↔ slot = IINEPM_BUTTON_A := by
  simp only [IINEPM_BUTTON_COUNT] at hs
  interval_cases slot <;> decide

theorem carries_on_triggers (P : egc_platform) (transfer : egc_usb_transfer_t)
    (ch : egc_gamepad_axis_e) (v : Nat) (h : transfer.carries_on P ch v) :
    (report_overlay P transfer.data).left_trigger =
        (if ch = EGC_GAMEPAD_AXIS_LEFT_TRIGGER then v else 0) ∧
      (report_overlay P transfer.data).right_trigger =
        (if ch = EGC_GAMEPAD_AXIS_RIGHT_TRIGGER then v else 0) := by
  obtain ⟨_, _, hv, ho⟩ := h
  cases ch <;>
    simp_all [iinepm_drum_input_report.intensity, other_channel]

/-- One poll carrying intensity `v` on channel `ch` alone, with no buttons: what the host sees
of that channel, and the session afterwards. -/
theorem drum_intr_transfer_cb_carries_on (P : egc_platform) (hP : P.valid) (issued : Bool)
    (statics : drum_intr_transfer_cb_statics) (device : egc_input_device_t)
    (transfer : egc_usb_transfer_t) (ch : egc_gamepad_axis_e) (v : Nat)
    (h : transfer.carries_on P ch v) :
    (reported_states (drum_intr_transfer_cb P issued statics device transfer).calls).map
        (channel_view P ch) =
        [(if v > 0 then iinepm_drum_velocity_to_s16 v else -32768, decide (v > 0))] ∧
      (v = 0 → device.private_data.side_hit_active = false →
        (drum_intr_transfer_cb P issued statics device transfer).device = device) ∧
      (v = 0 →
        (drum_intr_transfer_cb P issued statics device
          transfer).device.private_data.side_hit_active = false) := by
  obtain ⟨hl, hr⟩ := carries_on_triggers P transfer ch v h
  obtain ⟨hu, hb, _, _⟩ := h
  obtain ⟨hcalls, hdev⟩ := drum_intr_transfer_cb_usable P issued statics device transfer hu
  rw [hcalls, hdev]
  refine ⟨?_, ?_, ?_⟩
  · simp only [List.map, channel_view, egc_input_state_t.axis, egc_input_state_t.pressed]
    have hpress : (polled_buttons P (report_overlay P transfer.data)).testBit
        (P.button (shoulder_of ch)) = decide (v > 0) := by
      rw [Bool.eq_iff_iff, polled_buttons_pressed P hP, hb, hl, hr]
      cases ch <;> simp [shoulder_of]
    have haxis : polled_axes P (report_overlay P transfer.data) (P.axis ch) =
        if v > 0 then iinepm_drum_velocity_to_s16 v else -32768 := by
      cases ch
      · rw [polled_axes_left P hP, hl]; simp
      · rw [polled_axes_right, hr]; simp
    rw [hpress, haxis]
  · intro hv hflag
    obtain ⟨desc, ⟨last, active⟩⟩ := device
    simp only at hflag
    subst hflag
    simp [polled_session, hl, hr, hv]
  · intro hv
    simp [polled_session, hr, hv]

theorem drum_polling_cons (P : egc_platform) (statics : drum_intr_transfer_cb_statics)
    (device : egc_input_device_t) (issued : Bool) (transfer : egc_usb_transfer_t)
    (rest : List (Bool × egc_usb_transfer_t)) :
    (drum_polling P statics device ((issued, transfer) :: rest)).calls =
        (drum_intr_transfer_cb P issued statics device transfer).calls ++
          (drum_polling P (drum_intr_transfer_cb P issued statics device transfer).statics
            (drum_intr_transfer_cb P issued statics device transfer).device rest).calls ∧
      (drum_polling P statics device ((issued, transfer) :: rest)).device =
        (drum_polling P (drum_intr_transfer_cb P issued statics device transfer).statics
          (drum_intr_transfer_cb P issued statics device transfer).device rest).device := by
  simp [drum_polling]

/-- Idle polls from an idle session: each reports the idle view of the channel and the device is
left as it was. -/
theorem drum_polling_idle (P : egc_platform) (hP : P.valid) (ch : egc_gamepad_axis_e)
    (further : List (Bool × egc_usb_transfer_t))
    (hf : ∀ p ∈ further, p.2.carries_on P ch 0) (statics : drum_intr_transfer_cb_statics)
    (device : egc_input_device_t) (hflag : device.private_data.side_hit_active = false) :
    (reported_states (drum_polling P statics device further).calls).map (channel_view P ch) =
        List.replicate further.length (-32768, false) ∧
      (drum_polling P statics device further).device = device := by
  induction further generalizing statics with
  | nil => simp [drum_polling, reported_states]
  | cons p rest ih =>
    obtain ⟨issued, transfer⟩ := p
    have hp : transfer.carries_on P ch 0 := hf (issued, transfer) (List.mem_cons_self _ _)
    obtain ⟨hview, hsame, _⟩ :=
      drum_intr_transfer_cb_carries_on P hP issued statics device transfer ch 0 hp
    have hdev := hsame rfl hflag
    obtain ⟨hcalls, hlast⟩ := drum_polling_cons P statics device issued transfer rest
    have ih' := ih (fun q hq => hf q (List.mem_cons_of_mem _ hq))
      (drum_intr_transfer_cb P issued statics device transfer).statics
    rw [hcalls, hlast, hdev, reported_states_append, List.map_append, hview]
    refine ⟨?_, ih'.2⟩
    rw [ih'.1]
    simp [List.replicate_succ]

/-! ## Discarded completions -/

/-- C1: a completion shorter than 20 bytes, or whose status is not `COMPLETED`, hands no state to
the input-reporting sink and leaves the device, with its session, exactly as it was. -/
theorem drum_intr_transfer_cb_discards_unusable (P : egc_platform) (issued : Bool)
    (statics : drum_intr_transfer_cb_statics) (device : egc_input_device_t)
    (transfer : egc_usb_transfer_t)
    (h : transfer.length < 20 ∨ transfer.status ≠ EGC_USB_TRANSFER_STATUS_COMPLETED) :
    reported_states (drum_intr_transfer_cb P issued statics device transfer).calls = [] ∧
      (drum_intr_transfer_cb P issued statics device transfer).device = device := by
  have hcond : ¬ (transfer.status = EGC_USB_TRANSFER_STATUS_COMPLETED ∧
      transfer.length ≥ sizeof_iinepm_drum_input_report) := by
    rintro ⟨hs, hl⟩
    rcases h with h | h
    · simp [sizeof_iinepm_drum_input_report] at hl; omega
    · exact h hs
  simp [drum_intr_transfer_cb, hcond, reported_states_append, reported_states_debug,
    reported_states_request_data, reported_states]

theorem drum_intr_transfer_cb_discards_unusable_witness :
    (({ example_transfer 0x1000 128 7 with length := 19 } : egc_usb_transfer_t).length < 20 ∨
      ({ example_transfer 0x1000 128 7 with length := 19 } : egc_usb_transfer_t).status ≠
        EGC_USB_TRANSFER_STATUS_COMPLETED) ∧
    reported_states (drum_intr_transfer_cb example_platform true
      drum_intr_transfer_cb_statics.initial (example_device true 9)
      { example_transfer 0x1000 128 7 with length := 19 }).calls = [] ∧
    (drum_intr_transfer_cb example_platform true
      drum_intr_transfer_cb_statics.initial (example_device true 9)
      { example_transfer 0x1000 128 7 with length := 19 }).device = example_device true 9 :=
  ⟨Or.inl (by decide),
    drum_intr_transfer_cb_discards_unusable example_platform true
      drum_intr_transfer_cb_statics.initial (example_device true 9)
      { example_transfer 0x1000 128 7 with length := 19 } (Or.inl (by decide))⟩

/-! ## Fields the decoding depends on -/

/-- C2: for completed transfers of length at least 20, the reported state and the new session
depend on bytes 2..5 of the buffer only: two buffers that agree there (whatever their message
type, message size, thumb-axis and reserved bytes) give the same reported states and the same
device session. The intensities are bytes 4 and 5, and on a little-endian target the button mask
is byte 2 + 256 * byte 3. -/
theorem drum_intr_transfer_cb_depends_on_bytes_2_to_5 (P : egc_platform) (issued₁ issued₂ : Bool)
    (statics₁ statics₂ : drum_intr_transfer_cb_statics) (device : egc_input_device_t)
    (t₁ t₂ : egc_usb_transfer_t)
    (hs₁ : t₁.status = EGC_USB_TRANSFER_STATUS_COMPLETED) (hl₁ : 20 ≤ t₁.length)
    (hs₂ : t₂.status = EGC_USB_TRANSFER_STATUS_COMPLETED) (hl₂ : 20 ≤ t₂.length)
    (hagree : ∀ i, 2 ≤ i → i ≤ 5 → t₁.data i % 256 = t₂.data i % 256) :
    reported_states (drum_intr_transfer_cb P issued₁ statics₁ device t₁).calls =
        reported_states (drum_intr_transfer_cb P issued₂ statics₂ device t₂).calls ∧
      (drum_intr_transfer_cb P issued₁ statics₁ device t₁).device =
        (drum_intr_transfer_cb P issued₂ statics₂ device t₂).device ∧
      (report_overlay P t₁.data).left_trigger = t₁.data 4 % 256 ∧
      (report_overlay P t₁.data).right_trigger = t₁.data 5 % 256 ∧
      (P.big_endian = false →
        (report_overlay P t₁.data).buttons = t₁.data 2 % 256 + 256 * (t₁.data 3 % 256)) := by
  have h2 := hagree 2 (by omega) (by omega)
  have h3 := hagree 3 (by omega) (by omega)
  have h4 := hagree 4 (by omega) (by omega)
  have h5 := hagree 5 (by omega) (by omega)
  have hb : (report_overlay P t₁.data).buttons = (report_overlay P t₂.data).buttons := by
    simp [report_overlay, load_u16, load_u8, h2, h3]
  have hg : iinepm_get_buttons (report_overlay P t₁.data) =
      iinepm_get_buttons (report_overlay P t₂.data) := by
    simp only [iinepm_get_buttons, hb]
  have hlt : (report_overlay P t₁.data).left_trigger = (report_overlay P t₂.data).left_trigger := by
    simp [report_overlay, load_u8, h4]
  have hrt : (report_overlay P t₁.data).right_trigger =
      (report_overlay P t₂.data).right_trigger := by
    simp [report_overlay, load_u8, h5]
  have hc₁ : t₁.length ≥ sizeof_iinepm_drum_input_report := by
    simp [sizeof_iinepm_drum_input_report]; omega
  have hc₂ : t₂.length ≥ sizeof_iinepm_drum_input_report := by
    simp [sizeof_iinepm_drum_input_report]; omega
  refine ⟨?_, ?_, ?_, ?_, ?_⟩
  · simp only [drum_intr_transfer_cb, hs₁, hs₂, hc₁, hc₂, and_self, if_true, hg, hlt, hrt,
      reported_states_append, reported_states_debug, reported_states_request_data]
  · simp only [drum_intr_transfer_cb, hs₁, hs₂, hc₁, hc₂, and_self, if_true, hg, hlt, hrt]
  · simp [report_overlay, load_u8]
  · simp [report_overlay, load_u8]
  · intro hle
    simp [report_overlay, load_u16, load_u8, hle]

theorem drum_intr_transfer_cb_depends_on_bytes_2_to_5_witness :
    (∀ i, 2 ≤ i → i ≤ 5 →
      (example_transfer 0x1000 128 7).data i % 256 =
        (buffer_of [0x01, 0x15, 0x00, 0x10, 128, 7, 1, 2, 3, 4, 5, 6, 7, 8, 9, 10, 11, 12, 13, 14,
          15]) i % 256) ∧
    reported_states (drum_intr_transfer_cb example_platform true
        drum_intr_transfer_cb_statics.initial (example_device true 9)
        (example_transfer 0x1000 128 7)).calls =
      reported_states (drum_intr_transfer_cb example_platform false
        drum_intr_transfer_cb_statics.initial (example_device true 9)
        { status := EGC_USB_TRANSFER_STATUS_COMPLETED
          data := buffer_of [0x01, 0x15, 0x00, 0x10, 128, 7, 1, 2, 3, 4, 5, 6, 7, 8, 9, 10, 11, 12,
            13, 14, 15]
          length := 21 }).calls :=
  ⟨by intro i h₁ h₂; interval_cases i <;> rfl,
    (drum_intr_transfer_cb_depends_on_bytes_2_to_5 example_platform true false
      drum_intr_transfer_cb_statics.initial drum_intr_transfer_cb_statics.initial
      (example_device true 9) (example_transfer 0x1000 128 7)
      { status := EGC_USB_TRANSFER_STATUS_COMPLETED
        data := buffer_of [0x01, 0x15, 0x00, 0x10, 128, 7, 1, 2, 3, 4, 5, 6, 7, 8, 9, 10, 11, 12,
          13, 14, 15]
        length := 21 }
      rfl (by decide) rfl (by decide)
      (by intro i h₁ h₂; interval_cases i <;> rfl)).1⟩

/-! ## Intensity scaling -/

/-- C4: `iinepm_drum_velocity_to_s16` maps 0 to -32768 and 255 to 32767, is monotonic
non-decreasing on [1, 255], and for an intensity `v` in [1, 255] is
`(v * 65535 / 255) - 32768` with truncating division. -/
theorem iinepm_drum_velocity_to_s16_endpoints_monotone :
    iinepm_drum_velocity_to_s16 0 = -32768 ∧
      iinepm_drum_velocity_to_s16 255 = 32767 ∧
      (∀ a b : Nat, 1 ≤ a → a ≤ b → b ≤ 255 →
        iinepm_drum_velocity_to_s16 a ≤ iinepm_drum_velocity_to_s16 b) ∧
      (∀ v : Nat, 0 < v → v ≤ 255 →
        iinepm_drum_velocity_to_s16 v = Int.tdiv ((v : Int) * 65535) 255 - 32768) := by
  refine ⟨by decide, by decide, ?_, ?_⟩
  · intro a b _ hab hb
    rw [velocity_to_s16_linear a (by omega), velocity_to_s16_linear b hb]
    omega
  · intro v _ hv
    rw [velocity_to_s16_linear v hv, Int.tdiv_eq_ediv (by positivity) (by norm_num)]
    omega

theorem iinepm_drum_velocity_to_s16_endpoints_monotone_witness :
    (1 ≤ 50 ∧ 50 ≤ 128 ∧ 128 ≤ 255) ∧
      iinepm_drum_velocity_to_s16 50 ≤ iinepm_drum_velocity_to_s16 128 ∧
      iinepm_drum_velocity_to_s16 128 = Int.tdiv ((128 : Nat) * 65535) 255 - 32768 :=
  ⟨by decide,
    iinepm_drum_velocity_to_s16_endpoints_monotone.2.2.1 50 128 (by decide) (by decide)
      (by decide),
    iinepm_drum_velocity_to_s16_endpoints_monotone.2.2.2 128 (by decide) (by decide)⟩

/-! ## Button mapping -/

/-- C3: for every usable report with native button mask `b` and both hit intensities 0, one state
is reported and its pressed buttons are exactly the image of the set bits of `b` under the
15-entry `s_button_map`: South iff A or left-thumb, East iff B or right-thumb, West iff X,
North iff Y, the d-pad, Start, Back, the shoulders and Guide iff their own native bit; every
set bit of the button word is one of these abstract buttons. -/
theorem drum_intr_transfer_cb_button_image (P : egc_platform) (hP : P.valid) (issued : Bool)
    (statics : drum_intr_transfer_cb_statics) (device : egc_input_device_t)
    (transfer : egc_usb_transfer_t) (b : Nat) (h : transfer.usable)
    (hb : (report_overlay P transfer.data).buttons = b)
    (hl : (report_overlay P transfer.data).left_trigger = 0)
    (hr : (report_overlay P transfer.data).right_trigger = 0) :
    ∃ s, reported_states (drum_intr_transfer_cb P issued statics device transfer).calls = [s] ∧
      (∀ a, s.pressed P a = true ↔
        ∃ slot, slot < IINEPM_BUTTON_COUNT ∧ b &&& native_bit_of_slot slot ≠ 0 ∧
          s_button_map slot = some a) ∧
      (s.pressed P EGC_GAMEPAD_BUTTON_SOUTH = true ↔
        b &&& IINEPM_BUTTON_BIT_A ≠ 0 ∨ b &&& IINEPM_BUTTON_BIT_LEFT_THUMB ≠ 0) ∧
      (s.pressed P EGC_GAMEPAD_BUTTON_EAST = true ↔
        b &&& IINEPM_BUTTON_BIT_B ≠ 0 ∨ b &&& IINEPM_BUTTON_BIT_RIGHT_THUMB ≠ 0) ∧
      (s.pressed P EGC_GAMEPAD_BUTTON_WEST = true ↔ b &&& IINEPM_BUTTON_BIT_X ≠ 0) ∧
      (s.pressed P EGC_GAMEPAD_BUTTON_NORTH = true ↔ b &&& IINEPM_BUTTON_BIT_Y ≠ 0) ∧
      (s.pressed P EGC_GAMEPAD_BUTTON_DPAD_UP = true ↔ b &&& IINEPM_BUTTON_BIT_DPAD_UP ≠ 0) ∧
      (s.pressed P EGC_GAMEPAD_BUTTON_DPAD_DOWN = true ↔ b &&& IINEPM_BUTTON_BIT_DPAD_DOWN ≠ 0) ∧
      (s.pressed P EGC_GAMEPAD_BUTTON_DPAD_LEFT = true ↔ b &&& IINEPM_BUTTON_BIT_DPAD_LEFT ≠ 0) ∧
      (s.pressed P EGC_GAMEPAD_BUTTON_DPAD_RIGHT = true ↔
        b &&& IINEPM_BUTTON_BIT_DPAD_RIGHT ≠ 0) ∧
      (s.pressed P EGC_GAMEPAD_BUTTON_START = true ↔ b &&& IINEPM_BUTTON_BIT_START ≠ 0) ∧
      (s.pressed P EGC_GAMEPAD_BUTTON_BACK = true ↔ b &&& IINEPM_BUTTON_BIT_BACK ≠ 0) ∧
      (s.pressed P EGC_GAMEPAD_BUTTON_LEFT_SHOULDER = true ↔
        b &&& IINEPM_BUTTON_BIT_LEFT_SHOULDER ≠ 0) ∧
      (s.pressed P EGC_GAMEPAD_BUTTON_RIGHT_SHOULDER = true ↔
        b &&& IINEPM_BUTTON_BIT_RIGHT_SHOULDER ≠ 0) ∧
      (s.pressed P EGC_GAMEPAD_BUTTON_GUIDE = true ↔ b &&& IINEPM_BUTTON_BIT_GUIDE ≠ 0) ∧
      (∀ i, s.buttons.testBit i = true → ∃ a, P.button a = i ∧ s.pressed P a = true) := by
  have hb16 : (report_overlay P transfer.data).buttons % 2 ^ 16 = b := by
    rw [Nat.mod_eq_of_lt (report_overlay_buttons_lt P transfer.data), hb]
  have hpress : ∀ a, (polled_buttons P (report_overlay P transfer.data)).testBit (P.button a) =
      true ↔ ∃ slot, slot < IINEPM_BUTTON_COUNT ∧ b &&& native_bit_of_slot slot ≠ 0 ∧
        s_button_map slot = some a := by
    intro a
    rw [polled_buttons_pressed P hP, hb16, hl, hr]
    simp
  refine ⟨_, (drum_intr_transfer_cb_usable P issued statics device transfer h).1, ?_⟩
  simp only [egc_input_state_t.pressed]
  refine ⟨hpress, ?_, ?_, ?_, ?_, ?_, ?_, ?_, ?_, ?_, ?_, ?_, ?_, ?_, ?_⟩
  any_goals
    rw [hpress, exists_native_slot_iff]
    simp [s_button_map, native_bit_of_slot, IINEPM_BUTTON_DPAD_UP, IINEPM_BUTTON_DPAD_DOWN,
      IINEPM_BUTTON_DPAD_LEFT, IINEPM_BUTTON_DPAD_RIGHT, IINEPM_BUTTON_START, IINEPM_BUTTON_BACK,
      IINEPM_BUTTON_LEFT_THUMB, IINEPM_BUTTON_RIGHT_THUMB, IINEPM_BUTTON_LEFT_SHOULDER,
      IINEPM_BUTTON_RIGHT_SHOULDER, IINEPM_BUTTON_GUIDE, IINEPM_BUTTON_A, IINEPM_BUTTON_B,
      IINEPM_BUTTON_X, IINEPM_BUTTON_Y]
  any_goals tauto
  intro i hi
  rw [polled_buttons_testBit P hP.1, hl, hr] at hi
  rcases hi with ⟨slot, hs, hbit, a, hmap, hai⟩ | ⟨h0, _⟩ | ⟨h0, _⟩
  · refine ⟨a, hai, ?_⟩
    rw [hpress]
    rw [hb16] at hbit
    exact ⟨slot, hs, hbit, hmap⟩
  · exact absurd h0 (by decide)
  · exact absurd h0 (by decide)

theorem drum_intr_transfer_cb_button_image_witness :
    (example_platform.valid ∧ (example_transfer 0x1040 0 0).usable ∧
      (report_overlay example_platform (example_transfer 0x1040 0 0).data).buttons = 0x1040 ∧
      (report_overlay example_platform (example_transfer 0x1040 0 0).data).left_trigger = 0 ∧
      (report_overlay example_platform (example_transfer 0x1040 0 0).data).right_trigger = 0) ∧
    ∃ s, reported_states (drum_intr_transfer_cb example_platform true
        drum_intr_transfer_cb_statics.initial (example_device false 0)
        (example_transfer 0x1040 0 0)).calls = [s] ∧
      (s.pressed example_platform EGC_GAMEPAD_BUTTON_SOUTH = true ↔
        0x1040 &&& IINEPM_BUTTON_BIT_A ≠ 0 ∨ 0x1040 &&& IINEPM_BUTTON_BIT_LEFT_THUMB ≠ 0) :=
  ⟨⟨by decide, ⟨rfl, by decide⟩, by decide, by decide, by decide⟩,
    (drum_intr_transfer_cb_button_image example_platform (by decide) true
      drum_intr_transfer_cb_statics.initial (example_device false 0)
      (example_transfer 0x1040 0 0) 0x1040 ⟨rfl, by decide⟩ (by decide) (by decide)
      (by decide)).imp fun s hs => ⟨hs.1, hs.2.2.1⟩⟩

/-! ## End-to-end examples -/

/-- C5 (as stated, refuted): with no buttons, left intensity 128 and right intensity 0 the
reported left axis is 128, which is what `(128 * 65535 / 255) - 32768` evaluates to, not 32642. -/
theorem drum_intr_transfer_cb_left_128_axis_is_not_32642 :
    (∃ s, reported_states (drum_intr_transfer_cb example_platform true
        drum_intr_transfer_cb_statics.initial (example_device false 0)
        (example_transfer 0 128 0)).calls = [s] ∧
      s.axis example_platform EGC_GAMEPAD_AXIS_LEFT_TRIGGER = 128 ∧
      s.axis example_platform EGC_GAMEPAD_AXIS_LEFT_TRIGGER ≠ 32642) ∧
    Int.tdiv (128 * 65535) 255 - 32768 = 128 := by
  refine ⟨⟨_, (drum_intr_transfer_cb_usable example_platform true
    drum_intr_transfer_cb_statics.initial (example_device false 0)
    (example_transfer 0 128 0) ⟨rfl, by decide⟩).1, ?_, ?_⟩, by decide⟩
  · simp only [egc_input_state_t.axis]
    rw [polled_axes_left example_platform (by decide)]
    decide
  · simp only [egc_input_state_t.axis]
    rw [polled_axes_left example_platform (by decide)]
    decide

/-- C5 (amended): a usable report with no buttons, left intensity 128 and right intensity 0 is
reported with left axis `(128 * 65535 / 255) - 32768 = 128` and the left shoulder pressed, and
with right axis -32768 and the right shoulder not pressed. -/
theorem drum_intr_transfer_cb_left_128 (P : egc_platform) (hP : P.valid) (issued : Bool)
    (statics : drum_intr_transfer_cb_statics) (device : egc_input_device_t)
    (transfer : egc_usb_transfer_t) (h : transfer.usable)
    (hb : (report_overlay P transfer.data).buttons = 0)
    (hl : (report_overlay P transfer.data).left_trigger = 128)
    (hr : (report_overlay P transfer.data).right_trigger = 0) :
    ∃ s, reported_states (drum_intr_transfer_cb P issued statics device transfer).calls = [s] ∧
      s.axis P EGC_GAMEPAD_AXIS_LEFT_TRIGGER = Int.tdiv (128 * 65535) 255 - 32768 ∧
      s.axis P EGC_GAMEPAD_AXIS_LEFT_TRIGGER = 128 ∧
      s.pressed P EGC_GAMEPAD_BUTTON_LEFT_SHOULDER = true ∧
      s.axis P EGC_GAMEPAD_AXIS_RIGHT_TRIGGER = -32768 ∧
      s.pressed P EGC_GAMEPAD_BUTTON_RIGHT_SHOULDER = false := by
  refine ⟨_, (drum_intr_transfer_cb_usable P issued statics device transfer h).1, ?_⟩
  simp only [egc_input_state_t.axis, egc_input_state_t.pressed]
  have hleft : polled_axes P (report_overlay P transfer.data)
      (P.axis EGC_GAMEPAD_AXIS_LEFT_TRIGGER) = 128 := by
    rw [polled_axes_left P hP, hl]; decide
  refine ⟨by rw [hleft]; decide, hleft, ?_, ?_, ?_⟩
  · rw [polled_buttons_pressed P hP, hl]
    exact Or.inr (Or.inl ⟨by decide, rfl⟩)
  · rw [polled_axes_right, hr]; rfl
  · rw [Bool.eq_false_iff, Ne, polled_buttons_pressed P hP, hb, hl, hr]
    simp

theorem drum_intr_transfer_cb_left_128_witness :
    (example_platform.valid ∧ (example_transfer 0 128 0).usable) ∧
    ∃ s, reported_states (drum_intr_transfer_cb example_platform true
        drum_intr_transfer_cb_statics.initial (example_device false 0)
        (example_transfer 0 128 0)).calls = [s] ∧
      s.axis example_platform EGC_GAMEPAD_AXIS_LEFT_TRIGGER = 128 ∧
      s.pressed example_platform EGC_GAMEPAD_BUTTON_LEFT_SHOULDER = true :=
  ⟨⟨by decide, ⟨rfl, by decide⟩⟩,
    (drum_intr_transfer_cb_left_128 example_platform (by decide) true
      drum_intr_transfer_cb_statics.initial (example_device false 0)
      (example_transfer 0 128 0) ⟨rfl, by decide⟩ (by decide) (by decide)
      (by decide)).imp fun s hs => ⟨hs.1, hs.2.2.1, hs.2.2.2.1⟩⟩

/-- C6: a usable report with native button mask 0x1000 (A) and both hit intensities 0 is reported,
from any prior session, as the state whose button word has exactly the South bit (South is the
only pressed button) and whose left-trigger and right-trigger axes are both -32768. -/
theorem drum_intr_transfer_cb_native_A (P : egc_platform) (hP : P.valid) (issued : Bool)
    (statics : drum_intr_transfer_cb_statics) (device : egc_input_device_t)
    (transfer : egc_usb_transfer_t) (h : transfer.usable)
    (hb : (report_overlay P transfer.data).buttons = 0x1000)
    (hl : (report_overlay P transfer.data).left_trigger = 0)
    (hr : (report_overlay P transfer.data).right_trigger = 0) :
    ∃ s, reported_states (drum_intr_transfer_cb P issued statics device transfer).calls = [s] ∧
      s.buttons = BIT (P.button EGC_GAMEPAD_BUTTON_SOUTH) ∧
      (∀ a, s.pressed P a = true ↔ a = EGC_GAMEPAD_BUTTON_SOUTH) ∧
      s.axis P EGC_GAMEPAD_AXIS_LEFT_TRIGGER = -32768 ∧
      s.axis P EGC_GAMEPAD_AXIS_RIGHT_TRIGGER = -32768 := by
  refine ⟨_, (drum_intr_transfer_cb_usable P issued statics device transfer h).1, ?_⟩
  simp only [egc_input_state_t.axis, egc_input_state_t.pressed]
  refine ⟨?_, ?_, ?_, ?_⟩
  · apply Nat.eq_of_testBit_eq
    intro i
    rw [Bool.eq_iff_iff, polled_buttons_testBit P hP.1, hb, hl, hr]
    simp only [BIT, Nat.testBit_two_pow, decide_eq_true_eq]
    constructor
    · rintro (⟨slot, hs, hbit, a, hmap, hai⟩ | ⟨h0, _⟩ | ⟨h0, _⟩)
      · rw [(native_A_slot slot hs).1 hbit] at hmap
        cases hmap
        exact hai
      · exact absurd h0 (by decide)
      · exact absurd h0 (by decide)
    · intro hi
      exact Or.inl ⟨IINEPM_BUTTON_A, by decide, by decide, _, rfl, hi⟩
  · intro a
    rw [polled_buttons_pressed P hP, hb, hl, hr]
    constructor
    · rintro (⟨slot, hs, hbit, hmap⟩ | ⟨h0, _⟩ | ⟨h0, _⟩)
      · rw [(native_A_slot slot hs).1 hbit] at hmap
        cases hmap
        rfl
      · exact absurd h0 (by decide)
      · exact absurd h0 (by decide)
    · rintro rfl
      exact Or.inl ⟨IINEPM_BUTTON_A, by decide, by decide, rfl⟩
  · rw [polled_axes_left P hP, hl]; rfl
  · rw [polled_axes_right, hr]; rfl

theorem drum_intr_transfer_cb_native_A_witness :
    (example_platform.valid ∧ (example_transfer 0x1000 0 0).usable ∧
      (report_overlay example_platform (example_transfer 0x1000 0 0).data).buttons = 0x1000) ∧
    ∃ s, reported_states (drum_intr_transfer_cb example_platform true
        drum_intr_transfer_cb_statics.initial (example_device true 200)
        (example_transfer 0x1000 0 0)).calls = [s] ∧
      s.buttons = BIT (example_platform.button EGC_GAMEPAD_BUTTON_SOUTH) ∧
      s.axis example_platform EGC_GAMEPAD_AXIS_LEFT_TRIGGER = -32768 ∧
      s.axis example_platform EGC_GAMEPAD_AXIS_RIGHT_TRIGGER = -32768 :=
  ⟨⟨by decide, ⟨rfl, by decide⟩, by decide⟩,
    (drum_intr_transfer_cb_native_A example_platform (by decide) true
      drum_intr_transfer_cb_statics.initial (example_device true 200)
      (example_transfer 0x1000 0 0) ⟨rfl, by decide⟩ (by decide) (by decide)
      (by decide)).imp fun s hs => ⟨hs.1, hs.2.1, hs.2.2.2⟩⟩

/-! ## Side hits -/

/-- C8 (as stated, refuted): there is one session record, not one per channel. After a usable
poll with left intensity 128 and right intensity 0 the session has `side_hit_active = false`;
after a usable poll with left intensity 10 and right intensity 20 the recorded intensity is 20,
not the left channel's 10. -/
theorem drum_intr_transfer_cb_left_hit_not_recorded :
    ((report_overlay example_platform (example_transfer 0 128 0).data).left_trigger = 128 ∧
      (drum_intr_transfer_cb example_platform true drum_intr_transfer_cb_statics.initial
        (example_device false 0) (example_transfer 0 128 0)).device.private_data.side_hit_active
        = false) ∧
    ((report_overlay example_platform (example_transfer 0 10 20).data).left_trigger = 10 ∧
      (drum_intr_transfer_cb example_platform true drum_intr_transfer_cb_statics.initial
        (example_device false 0)
        (example_transfer 0 10 20)).device.private_data.last_side_hit_intensity = 20) := by
  refine ⟨⟨by decide, ?_⟩, ⟨by decide, ?_⟩⟩
  · rw [(drum_intr_transfer_cb_usable example_platform true
      drum_intr_transfer_cb_statics.initial (example_device false 0)
      (example_transfer 0 128 0) ⟨rfl, by decide⟩).2]
    decide
  · rw [(drum_intr_transfer_cb_usable example_platform true
      drum_intr_transfer_cb_statics.initial (example_device false 0)
      (example_transfer 0 10 20) ⟨rfl, by decide⟩).2]
    decide

/-- C8 (amended): the session is one record shared by both channels, the right channel being
processed last. After any usable poll in which the right intensity is > 0 the session has
`side_hit_active = true` and `last_side_hit_intensity` equal to the right intensity, whatever
the left intensity is. After a usable poll in which the left intensity is > 0,
`last_side_hit_intensity` is the left intensity when the right intensity is 0, and
`side_hit_active = true` when the right intensity is > 0 as well. -/
theorem drum_intr_transfer_cb_session_after_hit (P : egc_platform) (issued : Bool)
    (statics : drum_intr_transfer_cb_statics) (device : egc_input_device_t)
    (transfer : egc_usb_transfer_t) (h : transfer.usable) :
    ((report_overlay P transfer.data).right_trigger > 0 →
      (drum_intr_transfer_cb P issued statics device transfer).device.private_data.side_hit_active
          = true ∧
        (drum_intr_transfer_cb P issued statics device
          transfer).device.private_data.last_side_hit_intensity =
          (report_overlay P transfer.data).right_trigger) ∧
    ((report_overlay P transfer.data).left_trigger > 0 →
      ((report_overlay P transfer.data).right_trigger = 0 →
        (drum_intr_transfer_cb P issued statics device
          transfer).device.private_data.last_side_hit_intensity =
          (report_overlay P transfer.data).left_trigger) ∧
      ((report_overlay P transfer.data).right_trigger > 0 →
        (drum_intr_transfer_cb P issued statics device
          transfer).device.private_data.side_hit_active = true)) := by
  rw [(drum_intr_transfer_cb_usable P issued statics device transfer h).2]
  simp only [polled_session]
  refine ⟨fun hr => ⟨by simp [hr], by simp [hr]⟩, fun hl => ⟨fun hr => ?_, fun hr => by simp [hr]⟩⟩
  simp [hr, hl]

theorem drum_intr_transfer_cb_session_after_hit_witness :
    ((example_transfer 0 10 20).usable ∧
      (report_overlay example_platform (example_transfer 0 10 20).data).right_trigger > 0 ∧
      (example_transfer 0 10 0).usable ∧
      (report_overlay example_platform (example_transfer 0 10 0).data).left_trigger > 0 ∧
      (report_overlay example_platform (example_transfer 0 10 0).data).right_trigger = 0) ∧
    ((drum_intr_transfer_cb example_platform true drum_intr_transfer_cb_statics.initial
        (example_device false 0) (example_transfer 0 10 20)).device.private_data.side_hit_active
        = true ∧
      (drum_intr_transfer_cb example_platform true drum_intr_transfer_cb_statics.initial
        (example_device false 0)
        (example_transfer 0 10 20)).device.private_data.last_side_hit_intensity =
        (report_overlay example_platform (example_transfer 0 10 20).data).right_trigger) ∧
    (drum_intr_transfer_cb example_platform true drum_intr_transfer_cb_statics.initial
        (example_device false 0)
        (example_transfer 0 10 0)).device.private_data.last_side_hit_intensity =
      (report_overlay example_platform (example_transfer 0 10 0).data).left_trigger :=
  ⟨⟨⟨rfl, by decide⟩, by decide, ⟨rfl, by decide⟩, by decide, by decide⟩,
    (drum_intr_transfer_cb_session_after_hit example_platform true
      drum_intr_transfer_cb_statics.initial (example_device false 0) (example_transfer 0 10 20)
      ⟨rfl, by decide⟩).1 (by decide),
    ((drum_intr_transfer_cb_session_after_hit example_platform true
      drum_intr_transfer_cb_statics.initial (example_device false 0) (example_transfer 0 10 0)
      ⟨rfl, by decide⟩).2 (by decide)).1 (by decide)⟩

/-- C9 (as stated, refuted): with left intensity 0 and the native left-shoulder bit 0x0100 set, the
reported state has the left shoulder button pressed; likewise on the right with 0x0200. -/
theorem drum_intr_transfer_cb_idle_shoulder_pressed :
    (report_overlay example_platform (example_transfer 0x0300 0 0).data).left_trigger = 0 ∧
    (report_overlay example_platform (example_transfer 0x0300 0 0).data).right_trigger = 0 ∧
    ∃ s, reported_states (drum_intr_transfer_cb example_platform true
        drum_intr_transfer_cb_statics.initial (example_device false 0)
        (example_transfer 0x0300 0 0)).calls = [s] ∧
      s.pressed example_platform EGC_GAMEPAD_BUTTON_LEFT_SHOULDER = true ∧
      s.pressed example_platform EGC_GAMEPAD_BUTTON_RIGHT_SHOULDER = true := by
  refine ⟨by decide, by decide, _, (drum_intr_transfer_cb_usable example_platform true
    drum_intr_transfer_cb_statics.initial (example_device false 0)
    (example_transfer 0x0300 0 0) ⟨rfl, by decide⟩).1, ?_, ?_⟩
  · simp only [egc_input_state_t.pressed]
    rw [polled_buttons_pressed example_platform (by decide)]
    exact Or.inl ⟨IINEPM_BUTTON_LEFT_SHOULDER, by decide, by decide, rfl⟩
  · simp only [egc_input_state_t.pressed]
    rw [polled_buttons_pressed example_platform (by decide)]
    exact Or.inl ⟨IINEPM_BUTTON_RIGHT_SHOULDER, by decide, by decide, rfl⟩

/-- C9 (amended): for each channel, every usable report and either prior value of
`side_hit_active`: if the channel's intensity is 0 then the reported state has the channel's
trigger axis equal to -32768, and the channel's shoulder button is pressed exactly when the
native button mask has the channel's own shoulder bit (0x0100 left, 0x0200 right) set; so it is
not pressed when that bit is clear. -/
theorem drum_intr_transfer_cb_idle (P : egc_platform) (hP : P.valid) (issued : Bool)
    (statics : drum_intr_transfer_cb_statics) (device : egc_input_device_t)
    (transfer : egc_usb_transfer_t) (ch : egc_gamepad_axis_e) (h : transfer.usable)
    (hzero : (report_overlay P transfer.data).intensity ch = 0) :
    ∃ s, reported_states (drum_intr_transfer_cb P issued statics device transfer).calls = [s] ∧
      s.axis P ch = -32768 ∧
      (s.pressed P (shoulder_of ch) = true ↔
        (report_overlay P transfer.data).buttons &&& native_shoulder_bit ch ≠ 0) ∧
      ((report_overlay P transfer.data).buttons &&& native_shoulder_bit ch = 0 →
        s.pressed P (shoulder_of ch) = false) := by
  have hb16 : (report_overlay P transfer.data).buttons % 2 ^ 16 =
      (report_overlay P transfer.data).buttons :=
    Nat.mod_eq_of_lt (report_overlay_buttons_lt P transfer.data)
  refine ⟨_, (drum_intr_transfer_cb_usable P issued statics device transfer h).1, ?_⟩
  simp only [egc_input_state_t.axis, egc_input_state_t.pressed]
  cases ch with
  | EGC_GAMEPAD_AXIS_LEFT_TRIGGER =>
    simp only [iinepm_drum_input_report.intensity] at hzero
    have hiff : (polled_buttons P (report_overlay P transfer.data)).testBit
        (P.button (shoulder_of EGC_GAMEPAD_AXIS_LEFT_TRIGGER)) = true ↔
        (report_overlay P transfer.data).buttons &&&
          native_shoulder_bit EGC_GAMEPAD_AXIS_LEFT_TRIGGER ≠ 0 := by
      rw [polled_buttons_pressed P hP, hb16, hzero, exists_native_slot_iff]
      simp [shoulder_of, native_shoulder_bit, s_button_map, native_bit_of_slot,
        IINEPM_BUTTON_DPAD_UP, IINEPM_BUTTON_DPAD_DOWN,
        IINEPM_BUTTON_DPAD_LEFT, IINEPM_BUTTON_DPAD_RIGHT, IINEPM_BUTTON_START, IINEPM_BUTTON_BACK,
        IINEPM_BUTTON_LEFT_THUMB, IINEPM_BUTTON_RIGHT_THUMB, IINEPM_BUTTON_LEFT_SHOULDER,
        IINEPM_BUTTON_RIGHT_SHOULDER, IINEPM_BUTTON_GUIDE, IINEPM_BUTTON_A, IINEPM_BUTTON_B,
        IINEPM_BUTTON_X, IINEPM_BUTTON_Y]
    refine ⟨by rw [polled_axes_left P hP, hzero]; rfl, hiff, fun hclear => ?_⟩
    rw [Bool.eq_false_iff, Ne, hiff]
    exact fun hne => hne hclear
  | EGC_GAMEPAD_AXIS_RIGHT_TRIGGER =>
    simp only [iinepm_drum_input_report.intensity] at hzero
    have hiff : (polled_buttons P (report_overlay P transfer.data)).testBit
        (P.button (shoulder_of EGC_GAMEPAD_AXIS_RIGHT_TRIGGER)) = true ↔
        (report_overlay P transfer.data).buttons &&&
          native_shoulder_bit EGC_GAMEPAD_AXIS_RIGHT_TRIGGER ≠ 0 := by
      rw [polled_buttons_pressed P hP, hb16, hzero, exists_native_slot_iff]
      simp [shoulder_of, native_shoulder_bit, s_button_map, native_bit_of_slot,
        IINEPM_BUTTON_DPAD_UP, IINEPM_BUTTON_DPAD_DOWN,
        IINEPM_BUTTON_DPAD_LEFT, IINEPM_BUTTON_DPAD_RIGHT, IINEPM_BUTTON_START, IINEPM_BUTTON_BACK,
        IINEPM_BUTTON_LEFT_THUMB, IINEPM_BUTTON_RIGHT_THUMB, IINEPM_BUTTON_LEFT_SHOULDER,
        IINEPM_BUTTON_RIGHT_SHOULDER, IINEPM_BUTTON_GUIDE, IINEPM_BUTTON_A, IINEPM_BUTTON_B,
        IINEPM_BUTTON_X, IINEPM_BUTTON_Y]
    refine ⟨by rw [polled_axes_right, hzero]; rfl, hiff, fun hclear => ?_⟩
    rw [Bool.eq_false_iff, Ne, hiff]
    exact fun hne => hne hclear

theorem drum_intr_transfer_cb_idle_witness :
    (example_platform.valid ∧ (example_transfer 0x1000 0 9).usable ∧
      (report_overlay example_platform (example_transfer 0x1000 0 9).data).intensity
        EGC_GAMEPAD_AXIS_LEFT_TRIGGER = 0) ∧
    ∃ s, reported_states (drum_intr_transfer_cb example_platform true
        drum_intr_transfer_cb_statics.initial (example_device true 3)
        (example_transfer 0x1000 0 9)).calls = [s] ∧
      s.axis example_platform EGC_GAMEPAD_AXIS_LEFT_TRIGGER = -32768 ∧
      s.pressed example_platform (shoulder_of EGC_GAMEPAD_AXIS_LEFT_TRIGGER) = false :=
  ⟨⟨by decide, ⟨rfl, by decide⟩, by decide⟩,
    (drum_intr_transfer_cb_idle example_platform (by decide) true
      drum_intr_transfer_cb_statics.initial (example_device true 3)
      (example_transfer 0x1000 0 9) EGC_GAMEPAD_AXIS_LEFT_TRIGGER ⟨rfl, by decide⟩
      (by decide)).imp fun s hs => ⟨hs.1, hs.2.1, hs.2.2.2 (by decide)⟩⟩

/-! ## The hit sequence 0, 50, 0 -/

/-- C10: starting from the session created by init, with no buttons and the other channel at 0,
usable polls carrying the intensities 0, 50, 0 on one channel (left or right) report, in order,
idle (axis -32768, shoulder not pressed), active (axis `iinepm_drum_velocity_to_s16 50`,
shoulder pressed) and release (axis -32768, shoulder not pressed); `side_hit_active` is false
after the release poll; and any number of further zero-intensity polls each report the idle
values again and leave the device session as it was after the release poll. -/
theorem drum_polling_hit_sequence (P : egc_platform) (hP : P.valid) (ch : egc_gamepad_axis_e)
    (device₀ : egc_input_device_t) (vid pid : Nat) (statics : drum_intr_transfer_cb_statics)
    (i₁ i₂ i₃ : Bool) (t₁ t₂ t₃ : egc_usb_transfer_t)
    (further : List (Bool × egc_usb_transfer_t))
    (h₁ : t₁.carries_on P ch 0) (h₂ : t₂.carries_on P ch 50) (h₃ : t₃.carries_on P ch 0)
    (hf : ∀ p ∈ further, p.2.carries_on P ch 0) :
    (reported_states (drum_polling P statics (iinepm_drum_driver_ops_init P device₀ vid pid).1
        [(i₁, t₁), (i₂, t₂), (i₃, t₃)]).calls).map (channel_view P ch) =
        [(-32768, false), (iinepm_drum_velocity_to_s16 50, true), (-32768, false)] ∧
      (drum_polling P statics (iinepm_drum_driver_ops_init P device₀ vid pid).1
        [(i₁, t₁), (i₂, t₂), (i₃, t₃)]).device.private_data.side_hit_active = false ∧
      (reported_states (drum_polling P statics (iinepm_drum_driver_ops_init P device₀ vid pid).1
        ((i₁, t₁) :: (i₂, t₂) :: (i₃, t₃) :: further)).calls).map (channel_view P ch) =
        [(-32768, false), (iinepm_drum_velocity_to_s16 50, true), (-32768, false)] ++
          List.replicate further.length (-32768, false) ∧
      (drum_polling P statics (iinepm_drum_driver_ops_init P device₀ vid pid).1
        ((i₁, t₁) :: (i₂, t₂) :: (i₃, t₃) :: further)).device =
        (drum_polling P statics (iinepm_drum_driver_ops_init P device₀ vid pid).1
          [(i₁, t₁), (i₂, t₂), (i₃, t₃)]).device := by
  generalize (iinepm_drum_driver_ops_init P device₀ vid pid).1 = d₀
  obtain ⟨hv₁, _, _⟩ := drum_intr_transfer_cb_carries_on P hP i₁ statics d₀ t₁ ch 0 h₁
  generalize hr₁ : drum_intr_transfer_cb P i₁ statics d₀ t₁ = r₁ at hv₁
  obtain ⟨hv₂, _, _⟩ := drum_intr_transfer_cb_carries_on P hP i₂ r₁.statics r₁.device t₂ ch 50 h₂
  generalize hr₂ : drum_intr_transfer_cb P i₂ r₁.statics r₁.device t₂ = r₂ at hv₂
  obtain ⟨hv₃, _, hflag₃⟩ :=
    drum_intr_transfer_cb_carries_on P hP i₃ r₂.statics r₂.device t₃ ch 0 h₃
  generalize hr₃ : drum_intr_transfer_cb P i₃ r₂.statics r₂.device t₃ = r₃ at hv₃ hflag₃
  obtain ⟨hidle, hsame⟩ := drum_polling_idle P hP ch further hf r₃.statics r₃.device (hflag₃ rfl)
  have hnil : ∀ s d, drum_polling P s d [] = { statics := s, device := d, calls := [] } :=
    fun s d => rfl
  simp only [drum_polling_cons, hr₁, hr₂, hr₃, hnil, reported_states_append, List.map_append,
    hv₁, hv₂, hv₃, hidle, hsame, reported_states, List.map_nil, List.append_nil]
  simp [hflag₃]

theorem drum_polling_hit_sequence_witness :
    (example_platform.valid ∧
      (example_transfer 0 0 0).carries_on example_platform EGC_GAMEPAD_AXIS_LEFT_TRIGGER 0 ∧
      (example_transfer 0 50 0).carries_on example_platform EGC_GAMEPAD_AXIS_LEFT_TRIGGER 50) ∧
    (reported_states (drum_polling example_platform drum_intr_transfer_cb_statics.initial
        (iinepm_drum_driver_ops_init example_platform (example_device true 99) 0x056e 0x2004).1
        [(true, example_transfer 0 0 0), (true, example_transfer 0 50 0),
          (true, example_transfer 0 0 0)]).calls).map
        (channel_view example_platform EGC_GAMEPAD_AXIS_LEFT_TRIGGER) =
      [(-32768, false), (iinepm_drum_velocity_to_s16 50, true), (-32768, false)] :=
  ⟨⟨by decide, ⟨⟨rfl, by decide⟩, by decide, by decide, by decide⟩,
      ⟨⟨rfl, by decide⟩, by decide, by decide, by decide⟩⟩,
    (drum_polling_hit_sequence example_platform (by decide) EGC_GAMEPAD_AXIS_LEFT_TRIGGER
      (example_device true 99) 0x056e 0x2004 drum_intr_transfer_cb_statics.initial
      true true true (example_transfer 0 0 0) (example_transfer 0 50 0) (example_transfer 0 0 0)
      [(false, example_transfer 0 0 0)]
      ⟨⟨rfl, by decide⟩, by decide, by decide, by decide⟩
      ⟨⟨rfl, by decide⟩, by decide, by decide, by decide⟩
      ⟨⟨rfl, by decide⟩, by decide, by decide, by decide⟩
      (by
        intro p hp
        rw [List.mem_singleton] at hp
        subst hp
        exact ⟨⟨rfl, by decide⟩, by decide, by decide, by decide⟩)).1⟩

/-! ## The reported state stays within the capability descriptor -/

theorem available_buttons_testBit (P : egc_platform) (a : egc_gamepad_button_e) :
    (s_device_description P).available_buttons.testBit (P.button a) = true := by
  cases a <;> simp [s_device_description, BIT, Nat.testBit_or, Nat.testBit_two_pow]

/-- C11: for every usable report, every bit set in the reported button word (so every abstract
button pressed) is a bit of the descriptor's `available_buttons`; the only axis slots the driver
assigns are those of the left and right trigger, every other slot keeps the 0 of the zeroed
state, and both trigger axes are bits of the descriptor's `available_axes`. -/
theorem drum_intr_transfer_cb_within_description (P : egc_platform)
    (hlt : ∀ b, P.button b < 32) (issued : Bool) (statics : drum_intr_transfer_cb_statics)
    (device : egc_input_device_t) (transfer : egc_usb_transfer_t) (h : transfer.usable) :
    ∃ s, reported_states (drum_intr_transfer_cb P issued statics device transfer).calls = [s] ∧
      (∀ i, s.buttons.testBit i = true →
        (s_device_description P).available_buttons.testBit i = true) ∧
      (∀ a, s.pressed P a = true →
        (s_device_description P).available_buttons.testBit (P.button a) = true) ∧
      (∀ k, k ≠ P.axis EGC_GAMEPAD_AXIS_LEFT_TRIGGER →
        k ≠ P.axis EGC_GAMEPAD_AXIS_RIGHT_TRIGGER → s.axes k = 0) ∧
      (s_device_description P).available_axes.testBit
        (P.axis EGC_GAMEPAD_AXIS_LEFT_TRIGGER) = true ∧
      (s_device_description P).available_axes.testBit
        (P.axis EGC_GAMEPAD_AXIS_RIGHT_TRIGGER) = true := by
  refine ⟨_, (drum_intr_transfer_cb_usable P issued statics device transfer h).1, ?_, ?_, ?_, ?_,
    ?_⟩
  · intro i hi
    simp only [] at hi
    rw [polled_buttons_testBit P hlt] at hi
    rcases hi with ⟨_, _, _, a, _, rfl⟩ | ⟨_, rfl⟩ | ⟨_, rfl⟩ <;>
      exact available_buttons_testBit P _
  · intro a _
    exact available_buttons_testBit P a
  · intro k hl hr
    simp only [polled_axes]
    rw [Function.update_noteq hr, Function.update_noteq hl]
  · simp [s_device_description, BIT, Nat.testBit_or, Nat.testBit_two_pow]
  · simp [s_device_description, BIT, Nat.testBit_or, Nat.testBit_two_pow]

theorem drum_intr_transfer_cb_within_description_witness :
    ((∀ b, example_platform.button b < 32) ∧ (example_transfer 0xffff 200 100).usable) ∧
    ∃ s, reported_states (drum_intr_transfer_cb example_platform true
        drum_intr_transfer_cb_statics.initial (example_device true 5)
        (example_transfer 0xffff 200 100)).calls = [s] ∧
      (∀ i, s.buttons.testBit i = true →
        (s_device_description example_platform).available_buttons.testBit i = true) :=
  ⟨⟨by decide, ⟨rfl, by decide⟩⟩,
    (drum_intr_transfer_cb_within_description example_platform (by decide) true
      drum_intr_transfer_cb_statics.initial (example_device true 5)
      (example_transfer 0xffff 200 100) ⟨rfl, by decide⟩).imp fun s hs => ⟨hs.1, hs.2.1⟩⟩

/-! ## Probe and init -/

/-- C12: for every pair of 16-bit ids, probe returns `true` exactly when the vendor id is
0x056E and the product id is 0x2004, and this is the vendor/product pair of the capability
descriptor. -/
theorem iinepm_drum_driver_ops_probe_exact (P : egc_platform) (vid pid : Nat)
    (hv : vid < 2 ^ 16) (hp : pid < 2 ^ 16) :
    (iinepm_drum_driver_ops_probe vid pid = true ↔ vid = 0x056E ∧ pid = 0x2004) ∧
      (s_device_description P).vendor_id = 0x056E ∧
      (s_device_description P).product_id = 0x2004 ∧
      iinepm_drum_driver_ops_probe (s_device_description P).vendor_id
        (s_device_description P).product_id = true := by
  refine ⟨?_, rfl, rfl, ?_⟩
  · simp only [iinepm_drum_driver_ops_probe, egc_device_driver_is_compatible,
      Nat.mod_eq_of_lt hv, Nat.mod_eq_of_lt hp, List.any_cons, List.any_nil, Bool.or_false,
      Bool.and_eq_true, beq_iff_eq]
    constructor <;> rintro ⟨hvid, hpid⟩ <;> exact ⟨hvid.symm, hpid.symm⟩
  · show iinepm_drum_driver_ops_probe 0x056e 0x2004 = true
    decide

theorem iinepm_drum_driver_ops_probe_exact_witness :
    ((0x056E : Nat) < 2 ^ 16 ∧ (0x2005 : Nat) < 2 ^ 16) ∧
      (iinepm_drum_driver_ops_probe 0x056E 0x2005 = true ↔
        (0x056E : Nat) = 0x056E ∧ (0x2005 : Nat) = 0x2004) ∧
      iinepm_drum_driver_ops_probe 0x056E 0x2005 = false :=
  ⟨by decide,
    (iinepm_drum_driver_ops_probe_exact example_platform 0x056E 0x2005 (by decide)
      (by decide)).1,
    by decide⟩

/-- C13: for every device, whatever its private data held, init returns 0, binds the device to
`s_device_description`, leaves the session zeroed, and its only call into the host arms the
timer once with a delay of 500000 microseconds and repeat period 0: no transfer is issued. -/
theorem iinepm_drum_driver_ops_init_session (P : egc_platform) (device : egc_input_device_t)
    (vid pid : Nat) :
    (iinepm_drum_driver_ops_init P device vid pid).2.2 = 0 ∧
      (iinepm_drum_driver_ops_init P device vid pid).1.desc = some (s_device_description P) ∧
      (iinepm_drum_driver_ops_init P device vid pid).1.private_data.side_hit_active = false ∧
      (iinepm_drum_driver_ops_init P device vid pid).1.private_data.last_side_hit_intensity
        = 0 ∧
      (iinepm_drum_driver_ops_init P device vid pid).2.1 =
        [egc_call.egc_device_driver_set_timer 500000 0] ∧
      (∀ c ∈ (iinepm_drum_driver_ops_init P device vid pid).2.1,
        c.is_intr_issue = false ∧ c.is_ctrl_issue = false) := by
  refine ⟨rfl, rfl, rfl, rfl, rfl, ?_⟩
  intro c hc
  simp only [iinepm_drum_driver_ops_init, List.mem_singleton] at hc
  subst hc
  exact ⟨rfl, rfl⟩

/-! ## Re-arming the interrupt read -/

theorem drum_intr_transfer_cb_debug_printf_only (statics : drum_intr_transfer_cb_statics)
    (transfer : egc_usb_transfer_t) (report : iinepm_drum_input_report) :
    ∀ c ∈ (drum_intr_transfer_cb_debug statics transfer report).2,
      c.is_intr_issue = false ∧ c.is_ctrl_issue = false ∧ c.is_report_input = false ∧
        c.is_set_timer = false := by
  have hall : (drum_intr_transfer_cb_debug statics transfer report).2.all
      (fun c => !c.is_intr_issue && !c.is_ctrl_issue && !c.is_report_input && !c.is_set_timer)
      = true := by
    unfold drum_intr_transfer_cb_debug
    split
    · split
      · simp only []
        split
        · simp only [List.all_append]
          split <;> split <;> split <;>
            simp [egc_call.is_intr_issue, egc_call.is_ctrl_issue, egc_call.is_report_input,
              egc_call.is_set_timer]
        · rfl
      · rfl
    · rfl
  intro c hc
  have := List.all_eq_true.1 hall c hc
  simpa [and_assoc] using this

theorem iinepm_drum_request_data_calls (P : egc_platform) (issued : Bool) :
    (iinepm_drum_request_data P issued).1 =
      next_interrupt_read P ::
        (if issued = true then []
          else [egc_call.printf "Failed to issue USB interrupt transfer\n" []]) := by
  cases issued <;> rfl

theorem drum_intr_transfer_cb_calls (P : egc_platform) (issued : Bool)
    (statics : drum_intr_transfer_cb_statics) (device : egc_input_device_t)
    (transfer : egc_usb_transfer_t) :
    ∃ decoded : List egc_call,
      (decoded = [] ∨ ∃ s, decoded = [egc_call.egc_device_driver_report_input s]) ∧
      (drum_intr_transfer_cb P issued statics device transfer).calls =
        (drum_intr_transfer_cb_debug statics transfer (report_overlay P transfer.data)).2 ++
          decoded ++ (iinepm_drum_request_data P issued).1 := by
  by_cases hc : transfer.status = EGC_USB_TRANSFER_STATUS_COMPLETED ∧
      transfer.length ≥ sizeof_iinepm_drum_input_report
  · simp only [drum_intr_transfer_cb, hc, and_self, if_true]
    exact ⟨_, Or.inr ⟨_, rfl⟩, rfl⟩
  · simp only [drum_intr_transfer_cb, hc, if_false]
    exact ⟨_, Or.inl rfl, rfl⟩

/-- C14: every invocation of `drum_intr_transfer_cb`, whatever the status, length and content of
the transfer and whether or not the transport accepts the new transfer, makes exactly one call
issuing an asynchronous interrupt read, on endpoint `EGC_USB_ENDPOINT_IN | 1` with
`drum_intr_transfer_cb` as completion; every state report of the invocation comes before that
call, nothing but logging comes after it, and no control transfer is issued. -/
theorem drum_intr_transfer_cb_rearms (P : egc_platform) (issued : Bool)
    (statics : drum_intr_transfer_cb_statics) (device : egc_input_device_t)
    (transfer : egc_usb_transfer_t) :
    ∃ before after : List egc_call,
      (drum_intr_transfer_cb P issued statics device transfer).calls =
        before ++ next_interrupt_read P :: after ∧
      (∀ c ∈ before, c.is_intr_issue = false ∧ c.is_ctrl_issue = false) ∧
      (∀ c ∈ after, c.is_intr_issue = false ∧ c.is_ctrl_issue = false ∧
        c.is_report_input = false) ∧
      reported_states before =
        reported_states (drum_intr_transfer_cb P issued statics device transfer).calls ∧
      (drum_intr_transfer_cb P issued statics device transfer).calls.filter
        egc_call.is_intr_issue = [next_interrupt_read P] := by
  obtain ⟨decoded, hdec, hcalls⟩ := drum_intr_transfer_cb_calls P issued statics device transfer
  have hdebug := drum_intr_transfer_cb_debug_printf_only statics transfer
    (report_overlay P transfer.data)
  have hbefore : ∀ c ∈ (drum_intr_transfer_cb_debug statics transfer
      (report_overlay P transfer.data)).2 ++ decoded,
      c.is_intr_issue = false ∧ c.is_ctrl_issue = false := by
    intro c hc
    rcases List.mem_append.1 hc with hc | hc
    · exact ⟨(hdebug c hc).1, (hdebug c hc).2.1⟩
    · rcases hdec with rfl | ⟨s, rfl⟩
      · cases hc
      · rw [List.mem_singleton] at hc
        subst hc
        exact ⟨rfl, rfl⟩
  have hafter : ∀ c ∈ (if issued = true then []
      else [egc_call.printf "Failed to issue USB interrupt transfer\n" []]),
      c.is_intr_issue = false ∧ c.is_ctrl_issue = false ∧ c.is_report_input = false := by
    intro c hc
    cases issued
    · simp only [Bool.false_eq_true, if_false, List.mem_singleton] at hc
      subst hc
      exact ⟨rfl, rfl, rfl⟩
    · simp at hc
  have hfilter_before : ((drum_intr_transfer_cb_debug statics transfer
      (report_overlay P transfer.data)).2 ++ decoded).filter egc_call.is_intr_issue = [] :=
    List.filter_eq_nil_iff.2 fun c hc => by simp [(hbefore c hc).1]
  have hfilter_after : (if issued = true then []
      else [egc_call.printf "Failed to issue USB interrupt transfer\n" []]).filter
      egc_call.is_intr_issue = [] :=
    List.filter_eq_nil_iff.2 fun c hc => by simp [(hafter c hc).1]
  rw [hcalls, iinepm_drum_request_data_calls]
  refine ⟨_, _, rfl, hbefore, hafter, ?_, ?_⟩
  · rw [reported_states_append, reported_states_append, reported_states_append]
    have : reported_states (next_interrupt_read P :: (if issued = true then []
        else [egc_call.printf "Failed to issue USB interrupt transfer\n" []])) = [] := by
      cases issued <;> rfl
    rw [this, List.append_nil]
  · rw [List.filter_append, hfilter_before, List.nil_append, List.filter_cons]
    simp only [next_interrupt_read, egc_call.is_intr_issue, if_true, hfilter_after]

/-! ## At most one interrupt transfer outstanding -/

theorem host_account_foldl (ctrl_issued intr_issued : Bool) (calls : List egc_call)
    (s : lifecycle_state) :
    (calls.foldl (host_account ctrl_issued intr_issued) s).timer_armed =
        (s.timer_armed || calls.any egc_call.is_set_timer) ∧
      (calls.foldl (host_account ctrl_issued intr_issued) s).ctrl_outstanding =
        s.ctrl_outstanding +
          (if ctrl_issued = true then calls.countP egc_call.is_ctrl_issue else 0) ∧
      (calls.foldl (host_account ctrl_issued intr_issued) s).intr_outstanding =
        s.intr_outstanding +
          (if intr_issued = true then calls.countP egc_call.is_intr_issue else 0) := by
  induction calls generalizing s with
  | nil => simp
  | cons c rest ih =>
    rw [List.foldl_cons]
    obtain ⟨h₁, h₂, h₃⟩ := ih (host_account ctrl_issued intr_issued s c)
    rw [h₁, h₂, h₃]
    cases c <;> cases ctrl_issued <;> cases intr_issued <;>
      simp [host_account, egc_call.is_set_timer, egc_call.is_ctrl_issue,
        egc_call.is_intr_issue, List.countP_cons] <;> omega

theorem drum_intr_transfer_cb_call_counts (P : egc_platform) (issued : Bool)
    (statics : drum_intr_transfer_cb_statics) (device : egc_input_device_t)
    (transfer : egc_usb_transfer_t) :
    (drum_intr_transfer_cb P issued statics device transfer).calls.countP
        egc_call.is_intr_issue = 1 ∧
      (drum_intr_transfer_cb P issued statics device transfer).calls.countP
        egc_call.is_ctrl_issue = 0 ∧
      (drum_intr_transfer_cb P issued statics device transfer).calls.any
        egc_call.is_set_timer = false := by
  obtain ⟨decoded, hdec, hcalls⟩ := drum_intr_transfer_cb_calls P issued statics device transfer
  have hdebug := drum_intr_transfer_cb_debug_printf_only statics transfer
    (report_overlay P transfer.data)
  have hd₁ : (drum_intr_transfer_cb_debug statics transfer
      (report_overlay P transfer.data)).2.countP egc_call.is_intr_issue = 0 :=
    List.countP_eq_zero.2 fun c hc => by simp [(hdebug c hc).1]
  have hd₂ : (drum_intr_transfer_cb_debug statics transfer
      (report_overlay P transfer.data)).2.countP egc_call.is_ctrl_issue = 0 :=
    List.countP_eq_zero.2 fun c hc => by simp [(hdebug c hc).2.1]
  have hd₃ : (drum_intr_transfer_cb_debug statics transfer
      (report_overlay P transfer.data)).2.any egc_call.is_set_timer = false := by
    rw [List.any_eq_false]
    intro c hc
    simp [(hdebug c hc).2.2.2]
  rw [hcalls]
  simp only [List.countP_append, List.any_append, hd₁, hd₂, hd₃]
  rcases hdec with rfl | ⟨s, rfl⟩ <;> cases issued <;>
    simp [iinepm_drum_request_data, egc_call.is_intr_issue, egc_call.is_ctrl_issue,
      egc_call.is_set_timer, List.countP_cons]

theorem lifecycle_step_token (P : egc_platform) (keep : Bool) (s s' : lifecycle_state)
    (e : lifecycle_event) (hstep : lifecycle_step P keep s e = some s')
    (h : s.timer_armed.toNat + s.ctrl_outstanding + s.intr_outstanding ≤ 1) :
    s'.timer_armed.toNat + s'.ctrl_outstanding + s'.intr_outstanding ≤ 1 := by
  cases e with
  | timer_fire ctrl_issued intr_issued =>
    simp only [lifecycle_step] at hstep
    split at hstep
    · rename_i harmed
      cases hstep
      obtain ⟨h₁, h₂, h₃⟩ := host_account_foldl ctrl_issued intr_issued
        (iinepm_drum_driver_ops_timer P ctrl_issued intr_issued).1
        { s with timer_armed := keep &&
            (iinepm_drum_driver_ops_timer P ctrl_issued intr_issued).2 }
      rw [h₁, h₂, h₃]
      rw [harmed] at h
      have hc : s.ctrl_outstanding = 0 := by simp at h; omega
      have hi : s.intr_outstanding = 0 := by simp at h; omega
      cases ctrl_issued <;> cases intr_issued <;> cases keep <;>
        simp [iinepm_drum_driver_ops_timer, iinepm_drum_request_data, egc_call.is_set_timer,
          egc_call.is_ctrl_issue, egc_call.is_intr_issue, List.countP_cons, hc, hi]
    · cases hstep
  | ctrl_complete status intr_issued =>
    simp only [lifecycle_step] at hstep
    split at hstep
    · rename_i hpos
      cases hstep
      obtain ⟨h₁, h₂, h₃⟩ := host_account_foldl true intr_issued
        (iinepm_drum_init_cb P intr_issued status)
        { s with ctrl_outstanding := s.ctrl_outstanding - 1 }
      rw [h₁, h₂, h₃]
      have ht : s.timer_armed = false := by
        cases hta : s.timer_armed
        · rfl
        · rw [hta] at h; simp at h; omega
      have hc : s.ctrl_outstanding = 1 := by omega
      have hi : s.intr_outstanding = 0 := by omega
      cases status <;> cases intr_issued <;>
        simp [iinepm_drum_init_cb, iinepm_drum_request_data, egc_call.is_set_timer,
          egc_call.is_ctrl_issue, egc_call.is_intr_issue, List.countP_cons, ht, hc, hi]
    · cases hstep
  | intr_complete transfer intr_issued =>
    simp only [lifecycle_step] at hstep
    split at hstep
    · rename_i hpos
      cases hstep
      obtain ⟨h₁, h₂, h₃⟩ := host_account_foldl true intr_issued
        (drum_intr_transfer_cb P intr_issued s.statics s.device transfer).calls
        { s with
          device := (drum_intr_transfer_cb P intr_issued s.statics s.device transfer).device
          statics := (drum_intr_transfer_cb P intr_issued s.statics s.device transfer).statics
          intr_outstanding := s.intr_outstanding - 1 }
      obtain ⟨hn₁, hn₂, hn₃⟩ :=
        drum_intr_transfer_cb_call_counts P intr_issued s.statics s.device transfer
      rw [h₁, h₂, h₃, hn₁, hn₂, hn₃]
      have ht : s.timer_armed = false := by
        cases hta : s.timer_armed
        · rfl
        · rw [hta] at h; simp at h; omega
      have hc : s.ctrl_outstanding = 0 := by omega
      have hi : s.intr_outstanding = 1 := by omega
      cases intr_issued <;> simp [ht, hc, hi]
    · cases hstep
  | disconnect =>
    simp only [lifecycle_step] at hstep
    cases hstep
    obtain ⟨h₁, h₂, h₃⟩ := host_account_foldl true true iinepm_drum_driver_ops_disconnect.1 s
    rw [h₁, h₂, h₃]
    simpa [iinepm_drum_driver_ops_disconnect, egc_call.is_set_timer, egc_call.is_ctrl_issue,
      egc_call.is_intr_issue, List.countP_cons] using h

theorem lifecycle_run_token (P : egc_platform) (keep : Bool) (events : List lifecycle_event)
    (s s' : lifecycle_state) (hrun : lifecycle_run P keep s events = some s')
    (h : s.timer_armed.toNat + s.ctrl_outstanding + s.intr_outstanding ≤ 1) :
    s'.timer_armed.toNat + s'.ctrl_outstanding + s'.intr_outstanding ≤ 1 := by
  induction events generalizing s with
  | nil =>
    simp only [lifecycle_run] at hrun
    cases hrun
    exact h
  | cons e es ih =>
    simp only [lifecycle_run] at hrun
    cases hstep : lifecycle_step P keep s e with
    | none => rw [hstep] at hrun; cases hrun
    | some s₁ =>
      rw [hstep] at hrun
      exact ih s₁ hrun (lifecycle_step_token P keep s s₁ e hstep h)

theorem lifecycle_start_token (P : egc_platform) (device : egc_input_device_t) (vid pid : Nat)
    (statics : drum_intr_transfer_cb_statics) :
    (lifecycle_start P device vid pid statics).timer_armed = true ∧
      (lifecycle_start P device vid pid statics).ctrl_outstanding = 0 ∧
      (lifecycle_start P device vid pid statics).intr_outstanding = 0 :=
  ⟨rfl, rfl, rfl⟩

/-- C16: in every run of the lifecycle that starts right after init with no transfer
outstanding, in which the timer fires only while armed and a completion callback is delivered
only for a transfer issued and not yet completed, the number of outstanding interrupt transfers
is at most one in the state reached (and so in every state passed through, each being reached by
a shorter run); this holds whether or not the host keeps the timer armed when the handler
returns `true`. -/
theorem lifecycle_at_most_one_interrupt_outstanding (P : egc_platform) (keep : Bool)
    (device : egc_input_device_t) (vid pid : Nat) (statics : drum_intr_transfer_cb_statics)
    (events : List lifecycle_event) (s : lifecycle_state)
    (hrun : lifecycle_run P keep (lifecycle_start P device vid pid statics) events = some s) :
    s.intr_outstanding ≤ 1 := by
  have hstart := lifecycle_start_token P device vid pid statics
  have h := lifecycle_run_token P keep events _ s hrun
    (by rw [hstart.1, hstart.2.1, hstart.2.2]; decide)
  omega

theorem lifecycle_at_most_one_interrupt_outstanding_witness :
    ∃ s, lifecycle_run example_platform true
        (lifecycle_start example_platform (example_device true 9) 0x056e 0x2004
          drum_intr_transfer_cb_statics.initial)
        [lifecycle_event.timer_fire true true,
          lifecycle_event.ctrl_complete EGC_USB_TRANSFER_STATUS_COMPLETED true,
          lifecycle_event.intr_complete (example_transfer 0 50 0) true,
          lifecycle_event.intr_complete (example_transfer 0 0 0) true] = some s ∧
      s.intr_outstanding = 1 ∧ s.intr_outstanding ≤ 1 :=
  ⟨_, rfl, rfl,
    lifecycle_at_most_one_interrupt_outstanding example_platform true (example_device true 9)
      0x056e 0x2004 drum_intr_transfer_cb_statics.initial
      [lifecycle_event.timer_fire true true,
        lifecycle_event.ctrl_complete EGC_USB_TRANSFER_STATUS_COMPLETED true,
        lifecycle_event.intr_complete (example_transfer 0 50 0) true,
        lifecycle_event.intr_complete (example_transfer 0 0 0) true] _ rfl⟩

/-! ## Exact scaling -/

/-- C17: for every intensity `v` in [0, 255], `iinepm_drum_velocity_to_s16 v = 257 * v - 32768`:
the product `v * 65535` is a multiple of 255 and below 2^31, the quotient is `257 * v`, the
general formula gives the value of the zero case too, the value before the conversion to `s16`
lies in [-32768, 32767] so the conversion leaves it unchanged, and the function is strictly
increasing on [0, 255]. -/
theorem iinepm_drum_velocity_to_s16_exact (v : Nat) (hv : v ≤ 255) :
    iinepm_drum_velocity_to_s16 v = 257 * (v : Int) - 32768 ∧
      (v * 65535) % 255 = 0 ∧
      Int.tdiv ((v : Int) * 65535) 255 = 257 * (v : Int) ∧
      iinepm_drum_velocity_to_s16 v = Int.tdiv ((v : Int) * 65535) 255 - 32768 ∧
      iinepm_drum_velocity_to_s16 0 = Int.tdiv ((0 : Int) * 65535) 255 - 32768 ∧
      (v : Int) * 65535 < 2 ^ 31 ∧
      -32768 ≤ Int.tdiv ((v : Int) * 65535) 255 - 32768 ∧
      Int.tdiv ((v : Int) * 65535) 255 - 32768 ≤ 32767 ∧
      s16_of_int (Int.tdiv ((v : Int) * 65535) 255 - 32768) =
        Int.tdiv ((v : Int) * 65535) 255 - 32768 ∧
      (∀ w : Nat, w ≤ 255 → v < w →
        iinepm_drum_velocity_to_s16 v < iinepm_drum_velocity_to_s16 w) := by
  have hdiv : Int.tdiv ((v : Int) * 65535) 255 = 257 * (v : Int) := by
    rw [Int.tdiv_eq_ediv (by positivity) (by norm_num)]
    omega
  have hlin := velocity_to_s16_linear v hv
  refine ⟨hlin, by omega, hdiv, by rw [hlin, hdiv], by decide, by norm_num; omega,
    by rw [hdiv]; omega, by rw [hdiv]; omega, ?_, ?_⟩
  · rw [hdiv]
    unfold s16_of_int
    omega
  · intro w hw hvw
    rw [hlin, velocity_to_s16_linear w hw]
    omega

theorem iinepm_drum_velocity_to_s16_exact_witness :
    (200 ≤ 255 ∧ 201 ≤ 255 ∧ 200 < 201) ∧
      iinepm_drum_velocity_to_s16 200 = 257 * ((200 : Nat) : Int) - 32768 ∧
      iinepm_drum_velocity_to_s16 200 < iinepm_drum_velocity_to_s16 201 :=
  ⟨by decide, (iinepm_drum_velocity_to_s16_exact 200 (by decide)).1,
    (iinepm_drum_velocity_to_s16_exact 200 (by decide)).2.2.2.2.2.2.2.2.2 201 (by decide)
      (by decide)⟩

/-! ## The session and what the host observes -/

/-- C18: what is reported for a poll does not depend on the session: for every transfer and any
two devices (any `side_hit_active`, any `last_side_hit_intensity`), the reported states are the
same; for a usable poll it is one state, with the same button word and the same axes. -/
theorem drum_intr_transfer_cb_report_ignores_session (P : egc_platform)
    (issued₁ issued₂ : Bool) (statics₁ statics₂ : drum_intr_transfer_cb_statics)
    (device₁ device₂ : egc_input_device_t) (transfer : egc_usb_transfer_t) :
    reported_states (drum_intr_transfer_cb P issued₁ statics₁ device₁ transfer).calls =
        reported_states (drum_intr_transfer_cb P issued₂ statics₂ device₂ transfer).calls ∧
      (transfer.usable →
        ∃ s, reported_states (drum_intr_transfer_cb P issued₁ statics₁ device₁ transfer).calls
            = [s] ∧
          reported_states (drum_intr_transfer_cb P issued₂ statics₂ device₂ transfer).calls
            = [s]) := by
  by_cases h : transfer.usable
  · have h₁ := (drum_intr_transfer_cb_usable P issued₁ statics₁ device₁ transfer h).1
    have h₂ := (drum_intr_transfer_cb_usable P issued₂ statics₂ device₂ transfer h).1
    exact ⟨by rw [h₁, h₂], fun _ => ⟨_, h₁, h₂⟩⟩
  · have hcond : ¬ (transfer.status = EGC_USB_TRANSFER_STATUS_COMPLETED ∧
        transfer.length ≥ sizeof_iinepm_drum_input_report) := h
    refine ⟨?_, fun hu => absurd hu h⟩
    simp [drum_intr_transfer_cb, hcond, reported_states_append, reported_states_debug,
      reported_states_request_data, reported_states]

theorem drum_intr_transfer_cb_report_ignores_session_witness :
    (example_transfer 0x1000 50 0).usable ∧
    ∃ s, reported_states (drum_intr_transfer_cb example_platform true
          drum_intr_transfer_cb_statics.initial (example_device false 0)
          (example_transfer 0x1000 50 0)).calls = [s] ∧
        reported_states (drum_intr_transfer_cb example_platform true
          drum_intr_transfer_cb_statics.initial (example_device true 77)
          (example_transfer 0x1000 50 0)).calls = [s] :=
  ⟨⟨rfl, by decide⟩,
    (drum_intr_transfer_cb_report_ignores_session example_platform true true
      drum_intr_transfer_cb_statics.initial drum_intr_transfer_cb_statics.initial
      (example_device false 0) (example_device true 77) (example_transfer 0x1000 50 0)).2
      ⟨rfl, by decide⟩⟩

/-- C19: after every usable poll the one shared `side_hit_active` flag is true exactly when the
right intensity of the report is > 0, whatever the left intensity and the prior flag were, and
`last_side_hit_intensity` is the right intensity if that is > 0, otherwise the left intensity if
that is > 0, otherwise what it was. -/
theorem drum_intr_transfer_cb_shared_flag (P : egc_platform) (issued : Bool)
    (statics : drum_intr_transfer_cb_statics) (device : egc_input_device_t)
    (transfer : egc_usb_transfer_t) (h : transfer.usable) :
    ((drum_intr_transfer_cb P issued statics device transfer).device.private_data.side_hit_active
        = true ↔ (report_overlay P transfer.data).right_trigger > 0) ∧
      (drum_intr_transfer_cb P issued statics device
        transfer).device.private_data.last_side_hit_intensity =
        (if (report_overlay P transfer.data).right_trigger > 0 then
          (report_overlay P transfer.data).right_trigger
        else if (report_overlay P transfer.data).left_trigger > 0 then
          (report_overlay P transfer.data).left_trigger
        else device.private_data.last_side_hit_intensity) := by
  rw [(drum_intr_transfer_cb_usable P issued statics device transfer h).2]
  simp [polled_session]

theorem drum_intr_transfer_cb_shared_flag_witness :
    (example_transfer 0 128 0).usable ∧
      ((drum_intr_transfer_cb example_platform true drum_intr_transfer_cb_statics.initial
          (example_device true 3) (example_transfer 0 128 0)).device.private_data.side_hit_active
          = true ↔
        (report_overlay example_platform (example_transfer 0 128 0).data).right_trigger > 0) ∧
      (report_overlay example_platform (example_transfer 0 128 0).data).right_trigger = 0 :=
  ⟨⟨rfl, by decide⟩,
    (drum_intr_transfer_cb_shared_flag example_platform true
      drum_intr_transfer_cb_statics.initial (example_device true 3) (example_transfer 0 128 0)
      ⟨rfl, by decide⟩).1,
    by decide⟩

/-! ## Closed form of the native button translation -/

theorem and_two_pow_ne_zero (b j : Nat) : b &&& 2 ^ j ≠ 0 ↔ b.testBit j = true := by
  rw [Nat.and_two_pow]
  cases b.testBit j <;> simp

theorem native_bit_of_slot_eq (slot : Nat) (hs : slot < IINEPM_BUTTON_COUNT) :
    native_bit_of_slot slot = 2 ^ (if slot ≤ 10 then slot else slot + 1) := by
  simp only [IINEPM_BUTTON_COUNT] at hs
  interval_cases slot <;> decide

theorem iinepm_get_buttons_bits (report : iinepm_drum_input_report) (k : Nat) :
    (iinepm_get_buttons report).testBit k =
      (decide (k < 15) &&
        (report.buttons % 2 ^ 16).testBit (if k ≤ 10 then k else k + 1)) := by
  rw [iinepm_get_buttons_testBit]
  by_cases hk : k < 15
  · have hk' : k < IINEPM_BUTTON_COUNT := hk
    rw [native_bit_of_slot_eq k hk', Bool.eq_iff_iff]
    simp only [Bool.and_eq_true, decide_eq_true_eq, and_two_pow_ne_zero, IINEPM_BUTTON_COUNT]
  · simp [IINEPM_BUTTON_COUNT, hk]

theorem testBit_0x07FF (k : Nat) : (0x07FF : Nat).testBit k = decide (k < 11) := by
  rw [show (0x07FF : Nat) = 2 ^ 11 - 1 from rfl, Nat.testBit_two_pow_sub_one]

theorem testBit_0x7800 (k : Nat) : (0x7800 : Nat).testBit k = decide (11 ≤ k ∧ k < 15) := by
  rw [show (0x7800 : Nat) = (2 ^ 4 - 1) <<< 11 from rfl, Nat.testBit_shiftLeft,
    Nat.testBit_two_pow_sub_one, Bool.eq_iff_iff]
  simp only [Bool.and_eq_true, decide_eq_true_eq, ge_iff_le]
  omega

/-- C20: for every 16-bit native mask `b`, `iinepm_get_buttons` returns
`(b AND 0x07FF) OR ((b >> 1) AND 0x7800)`: native bits 0..10 keep their position, native bits
12..15 become logical slots 11..14, the native bit 0x0800 is ignored (flipping it gives the same
result), the result is below 2^15, and every set logical bit is a slot with an entry in
`s_button_map`. -/
theorem iinepm_get_buttons_closed_form (report : iinepm_drum_input_report) (b : Nat)
    (hb : report.buttons = b) (h16 : b < 2 ^ 16) :
    iinepm_get_buttons report = (b &&& 0x07FF) ||| ((b >>> 1) &&& 0x7800) ∧
      (∀ k, k ≤ 10 → (iinepm_get_buttons report).testBit k = b.testBit k) ∧
      (∀ k, 11 ≤ k → k ≤ 14 → (iinepm_get_buttons report).testBit k = b.testBit (k + 1)) ∧
      iinepm_get_buttons { report with buttons := b ^^^ 0x0800 } = iinepm_get_buttons report ∧
      iinepm_get_buttons report < 2 ^ 15 ∧
      (∀ k, (iinepm_get_buttons report).testBit k = true → k < IINEPM_BUTTON_COUNT ∧
        (s_button_map k).isSome = true) := by
  have hmod : report.buttons % 2 ^ 16 = b := by rw [hb, Nat.mod_eq_of_lt h16]
  have hbits : ∀ k, (iinepm_get_buttons report).testBit k =
      (decide (k < 15) && b.testBit (if k ≤ 10 then k else k + 1)) := by
    intro k
    rw [iinepm_get_buttons_bits, hmod]
  refine ⟨?_, ?_, ?_, ?_, ?_, ?_⟩
  · apply Nat.eq_of_testBit_eq
    intro k
    rw [hbits, Nat.testBit_or, Nat.testBit_and, Nat.testBit_and, Nat.testBit_shiftRight,
      testBit_0x07FF, testBit_0x7800]
    by_cases h10 : k ≤ 10
    · have h1 : k < 15 := by omega
      have h2 : k < 11 := by omega
      have h3 : ¬ (11 ≤ k ∧ k < 15) := by omega
      simp [h10, h1, h2, h3]
    · by_cases h15 : k < 15
      · have h2 : ¬ k < 11 := by omega
        have h3 : 11 ≤ k ∧ k < 15 := by omega
        simp [h10, h15, h2, h3, Nat.add_comm]
      · have h2 : ¬ k < 11 := by omega
        have h3 : ¬ (11 ≤ k ∧ k < 15) := by omega
        simp [h15, h2, h3]
  · intro k hk
    have h1 : k < 15 := by omega
    simp [hbits, hk, h1]
  · intro k hk₁ hk₂
    have h1 : k < 15 := by omega
    have h2 : ¬ k ≤ 10 := by omega
    simp [hbits, h1, h2]
  · have hx : b ^^^ 0x0800 < 2 ^ 16 := Nat.xor_lt_two_pow h16 (by norm_num)
    apply Nat.eq_of_testBit_eq
    intro k
    rw [hbits, iinepm_get_buttons_bits]
    simp only [Nat.mod_eq_of_lt hx, Nat.testBit_xor]
    rw [show (0x0800 : Nat) = 2 ^ 11 from rfl, Nat.testBit_two_pow]
    by_cases h10 : k ≤ 10
    · have : ¬ (11 = k) := by omega
      simp [h10, this]
    · have : ¬ (11 = k + 1) := by omega
      simp [h10, this]
  · apply Nat.lt_pow_two_of_testBit
    intro k hk
    have : ¬ k < 15 := by omega
    simp [hbits, this]
  · intro k hk
    rw [hbits] at hk
    simp only [Bool.and_eq_true, decide_eq_true_eq] at hk
    refine ⟨hk.1, ?_⟩
    have hlt := hk.1
    interval_cases k <;> rfl

theorem iinepm_get_buttons_closed_form_witness :
    ((report_overlay example_platform (example_transfer 0xF8C3 0 0).data).buttons = 0xF8C3 ∧
      (0xF8C3 : Nat) < 2 ^ 16) ∧
    iinepm_get_buttons (report_overlay example_platform (example_transfer 0xF8C3 0 0).data) =
      (0xF8C3 &&& 0x07FF) ||| ((0xF8C3 >>> 1) &&& 0x7800) ∧
    iinepm_get_buttons (report_overlay example_platform (example_transfer 0xF8C3 0 0).data) =
      0x78C3 :=
  ⟨⟨by decide, by decide⟩,
    (iinepm_get_buttons_closed_form
      (report_overlay example_platform (example_transfer 0xF8C3 0 0).data) 0xF8C3 (by decide)
      (by decide)).1,
    by decide⟩

/-! ## Handshake -/

